import Mathlib

/-!
qfusion: bot AI headers, the matchmaker client and the UI request launcher

A shallow embedding of parts of

* source/game/ai/teamplay/SquadBasedTeam.h (CachedTravelTimesMatrix, AiSquad),
* source/game/ai/movement/CombatDodgeToTargetAction.h,
* source/game/ai/bot.h (SelectedMiscTactics, Bot),
* source/client/cl_mm.c (client ratings, the login state machine, error messages),
* source/ui_cef/RenderProcessHandler.cpp (SetKeysAsArgs, StartExec),

followed by theorems about these definitions.

Conventions: a C array of fixed size is a list together with a proof of its
length; C `unsigned` values are natural numbers; entities and clients are
identified by their numbers; pointers into the ratings list are positions in
the list (the head is position 0); `float` values are only stored and compared
for identity and are carried as rationals.
-/

namespace QFusion

/-! ## Fixed-size C arrays -/

/-- A C array `T a[n]`: exactly `n` cells. -/
structure CArray (α : Type) (n : Nat) where
  cells : List α
  size_eq : cells.length = n

namespace CArray

/-- The assignment `a[i] = v`. -/
def set {α : Type} {n : Nat} (a : CArray α n) (i : Nat) (v : α) : CArray α n :=
  { cells := a.cells.set i v
    size_eq := by rw [List.length_set]; exact a.size_eq }

/-- The read `a[i]`, with a default for an index outside the array. -/
def read {α : Type} {n : Nat} (a : CArray α n) (i : Nat) (dflt : α) : α :=
  a.cells.getD i dflt

/-- An array whose cells all hold `v`. -/
def filled {α : Type} (n : Nat) (v : α) : CArray α n :=
  { cells := List.replicate n v
    size_eq := List.length_replicate n v }

end CArray

/-- The C++ algorithm std::fill(first, last, value) with first = a + start and
last = first + count: the loop `for (; first != last; ++first) *first = value`. -/
def std_fill {α : Type} {n : Nat} (a : CArray α n) (start count : Nat) (value : α) : CArray α n :=
  match count with
  | 0 => a
  | k + 1 => std_fill (a.set start value) (start + 1) k value

/-! ## CachedTravelTimesMatrix (SquadBasedTeam.h) -/

/-- The class CachedTravelTimesMatrix: `int aasTravelTimes[MAX_CLIENTS * MAX_CLIENTS]`.
The constant MAX_CLIENTS is declared outside the given sources and is a parameter. -/
structure CachedTravelTimesMatrix (MAX_CLIENTS : Nat) where
  aasTravelTimes : CArray Int (MAX_CLIENTS * MAX_CLIENTS)

namespace CachedTravelTimesMatrix

/-- The method Clear:
`std::fill( aasTravelTimes, aasTravelTimes + MAX_CLIENTS * MAX_CLIENTS, -1 )`;
-1 means that a value should be lazily computed on demand. -/
def Clear {MAX_CLIENTS : Nat} (m : CachedTravelTimesMatrix MAX_CLIENTS) :
    CachedTravelTimesMatrix MAX_CLIENTS :=
  { aasTravelTimes := std_fill m.aasTravelTimes 0 (MAX_CLIENTS * MAX_CLIENTS) (-1) }

/-- The cell `aasTravelTimes[i]`. -/
def cell {MAX_CLIENTS : Nat} (m : CachedTravelTimesMatrix MAX_CLIENTS) (i : Nat) : Int :=
  m.aasTravelTimes.read i 0

/-- Modelled from the spec: the position of the pair (fromClient, toClient) in
the dense two-dimensional table keyed by agent pair; the indexing code of
GetAASTravelTime is not in the header. Row-major over the
MAX_CLIENTS * MAX_CLIENTS cells. -/
def index (MAX_CLIENTS fromClient toClient : Nat) : Nat :=
  fromClient * MAX_CLIENTS + toClient

end CachedTravelTimesMatrix

/-- A travel-times matrix together with the number of calls of
FindAASTravelTime made so far (the counting traversal-cost stub of the spec). -/
structure TravelTimesQueries (MAX_CLIENTS : Nat) where
  matrix : CachedTravelTimesMatrix MAX_CLIENTS
  findCalls : Nat

namespace TravelTimesQueries

/-- The per-frame invalidation: Clear on the matrix (the stub keeps counting). -/
def Clear {MAX_CLIENTS : Nat} (q : TravelTimesQueries MAX_CLIENTS) :
    TravelTimesQueries MAX_CLIENTS :=
  { q with matrix := q.matrix.Clear }

end TravelTimesQueries

/-! ## AiSquad (SquadBasedTeam.h) -/

/-- Modelled from the spec: the container StaticVector<T, N> of static_vector.h,
which is not among the sources: a bounded group of at most N elements kept in
insertion order. -/
structure StaticVector (α : Type) (N : Nat) where
  elems : List α

namespace StaticVector

/-- Modelled from the spec: the empty container. -/
def empty {α : Type} {N : Nat} : StaticVector α N := { elems := [] }

/-- Modelled from the spec: the number of stored elements. -/
def size {α : Type} {N : Nat} (v : StaticVector α N) : Nat := v.elems.length

/-- Modelled from the spec: appending an element; there is no result when the
capacity N is exhausted (a join needs free capacity). -/
def push_back {α : Type} {N : Nat} (v : StaticVector α N) (x : α) : Option (StaticVector α N) :=
  if v.size < N then some { elems := v.elems ++ [x] } else none

/-- Modelled from the spec: removing all elements. -/
def clear {α : Type} {N : Nat} (_v : StaticVector α N) : StaticVector α N := { elems := [] }

/-- Modelled from the spec: removing the first occurrence of an element. -/
def remove {α : Type} [DecidableEq α] {N : Nat} (v : StaticVector α N) (x : α) :
    StaticVector α N :=
  { elems := v.elems.erase x }

end StaticVector

/-- Modelled from the spec: the base class AiFrameAwareUpdatable (ai_base_ai.h is
not among the sources): the modulo/offset pair assigned to an updatable object. -/
structure AiFrameAwareUpdatable where
  frameAffinityModulo : Nat
  frameAffinityOffset : Nat
deriving DecidableEq, Repr

/-- Modelled from the spec: AiFrameAwareUpdatable::SetFrameAffinity assigns the
modulo/offset pair. -/
def AiFrameAwareUpdatable.SetFrameAffinity (modulo offset : Nat)
    (_u : AiFrameAwareUpdatable) : AiFrameAwareUpdatable :=
  { frameAffinityModulo := modulo, frameAffinityOffset := offset }

/-- The constant `AiSquad::MAX_SIZE`. -/
def AiSquad.MAX_SIZE : Nat := 3

/-- The nested class AiSquad::SquadEnemiesTracker: the members declared in the
header and the frame affinity of its base AiEnemiesTracker. -/
structure SquadEnemiesTracker where
  frameAffinity : AiFrameAwareUpdatable
  botRoleWeights : CArray Rat AiSquad.MAX_SIZE
  botEnemies : CArray (Option Nat) AiSquad.MAX_SIZE

/-- The call `squadEnemiesTracker->SetFrameAffinity( modulo, offset )`. -/
def SquadEnemiesTracker.SetFrameAffinity (modulo offset : Nat) (t : SquadEnemiesTracker) :
    SquadEnemiesTracker :=
  { t with frameAffinity := t.frameAffinity.SetFrameAffinity modulo offset }

/-- The class AiSquad: its data members, bots being entity numbers;
`BotsList` is `StaticVector<Bot*, MAX_SIZE>`. -/
structure AiSquad where
  frameAffinity : AiFrameAwareUpdatable
  isValid : Bool
  inUse : Bool
  canFightTogether : Bool
  canMoveTogether : Bool
  brokenConnectivityTimeoutAt : Int
  botsDetached : Bool
  bots : StaticVector Nat AiSquad.MAX_SIZE
  lastDroppedByBotTimestamps : CArray Int AiSquad.MAX_SIZE
  lastDroppedForBotTimestamps : CArray Int AiSquad.MAX_SIZE
  squadEnemiesTracker : SquadEnemiesTracker

namespace AiSquad

/-- The accessor `Bots()`. -/
def Bots (s : AiSquad) : StaticVector Nat MAX_SIZE := s.bots

/-- The accessor `IsValid()`. -/
def IsValid (s : AiSquad) : Bool := s.isValid

/-- The accessor `InUse()`. -/
def InUse (s : AiSquad) : Bool := s.inUse

/-- The method SetFrameAffinity: the super method first, then the enemy pool. -/
def SetFrameAffinity (modulo offset : Nat) (s : AiSquad) : AiSquad :=
  let s1 := { s with frameAffinity := s.frameAffinity.SetFrameAffinity modulo offset }
  { s1 with squadEnemiesTracker := s1.squadEnemiesTracker.SetFrameAffinity modulo offset }

/-- Modelled from the spec: a freshly constructed squad (the constructor is
defined outside the header): no members, not valid, not in use. -/
def construct : AiSquad :=
  { frameAffinity := { frameAffinityModulo := 0, frameAffinityOffset := 0 }
    isValid := false
    inUse := false
    canFightTogether := false
    canMoveTogether := false
    brokenConnectivityTimeoutAt := 0
    botsDetached := false
    bots := StaticVector.empty
    lastDroppedByBotTimestamps := CArray.filled MAX_SIZE 0
    lastDroppedForBotTimestamps := CArray.filled MAX_SIZE 0
    squadEnemiesTracker :=
      { frameAffinity := { frameAffinityModulo := 0, frameAffinityOffset := 0 }
        botRoleWeights := CArray.filled MAX_SIZE 0
        botEnemies := CArray.filled MAX_SIZE none } }

/-- Modelled from the spec: PrepareToAddBots (defined outside the header): the
squad slot is taken into use as a valid squad without members. -/
def PrepareToAddBots (s : AiSquad) : AiSquad :=
  { s with isValid := true, inUse := true, botsDetached := false, bots := s.bots.clear }

/-- Modelled from the spec: AddBot (defined outside the header) appends a member;
no result when the member list is full. -/
def AddBot (bot : Nat) (s : AiSquad) : Option AiSquad :=
  (s.bots.push_back bot).map fun bs => { s with bots := bs }

/-- Modelled from the spec: MayAttachBot (defined outside the header): an agent
may join an existing squad only while the squad has free capacity and is
currently valid; `compatible` stands for the remaining checks on the bot. -/
def MayAttachBot (compatible : Bool) (s : AiSquad) : Bool :=
  s.isValid && decide (s.bots.size < MAX_SIZE) && compatible

/-- Modelled from the spec: TryAttachBot (defined outside the header) adds the
bot when MayAttachBot allows it and reports whether it did. -/
def TryAttachBot (compatible : Bool) (bot : Nat) (s : AiSquad) : Bool × AiSquad :=
  if MayAttachBot compatible s then
    match AddBot bot s with
    | some s1 => (true, s1)
    | none => (false, s)
  else (false, s)

/-- Modelled from the spec: Invalidate (defined outside the header) marks the
squad as not valid. -/
def Invalidate (s : AiSquad) : AiSquad :=
  { s with isValid := false }

/-- Modelled from the spec: ReleaseBotsTo (defined outside the header) releases
the members to the orphan pool; the squad keeps none. -/
def ReleaseBotsTo (orphans : List Nat) (s : AiSquad) : List Nat × AiSquad :=
  (orphans ++ s.bots.elems, { s with bots := s.bots.clear, botsDetached := true, inUse := false })

/-- Modelled from the spec: OnBotRemoved (defined outside the header): the bot
leaves the member list and the squad is invalidated. -/
def OnBotRemoved (bot : Nat) (s : AiSquad) : AiSquad :=
  Invalidate { s with bots := s.bots.remove bot }

end AiSquad

/-- The operations that change a squad. -/
inductive SquadOp where
  | prepareToAddBots
  | addBot (bot : Nat)
  | tryAttachBot (compatible : Bool) (bot : Nat)
  | invalidate
  | releaseBots
  | onBotRemoved (bot : Nat)
  | setFrameAffinity (modulo offset : Nat)
deriving DecidableEq, Repr

/-- One squad operation; no result when AddBot is called on a full squad. -/
def SquadOp.apply : SquadOp → AiSquad → Option AiSquad
  | .prepareToAddBots, s => some s.PrepareToAddBots
  | .addBot bot, s => s.AddBot bot
  | .tryAttachBot compatible bot, s => some (s.TryAttachBot compatible bot).2
  | .invalidate, s => some s.Invalidate
  | .releaseBots, s => some (s.ReleaseBotsTo []).2
  | .onBotRemoved bot, s => some (s.OnBotRemoved bot)
  | .setFrameAffinity modulo offset, s => some (s.SetFrameAffinity modulo offset)

/-- A sequence of squad operations, left to right. -/
def runSquadOps : List SquadOp → AiSquad → Option AiSquad
  | [], s => some s
  | op :: ops, s => (op.apply s).bind (runSquadOps ops)

/-! ## CombatDodgeSemiRandomlyToTargetAction (CombatDodgeToTargetAction.h) -/

/-- The data members of CombatDodgeSemiRandomlyToTargetAction. -/
structure CombatDodgeSemiRandomlyToTargetAction where
  bestTravelTimeSoFar : Int
  bestFloorClusterSoFar : Int
  maxAttempts : Nat
  attemptNum : Nat
  isCombatDashingAllowed : Bool
  isCompatCrouchingAllowed : Bool
deriving DecidableEq, Repr

namespace CombatDodgeSemiRandomlyToTargetAction

/-- The method ShouldTryRandomness: `attemptNum < maxAttempts / 2`. -/
def ShouldTryRandomness (a : CombatDodgeSemiRandomlyToTargetAction) : Bool :=
  decide (a.attemptNum < a.maxAttempts / 2)

/-- The method ShouldTrySpecialMovement: `maxAttempts > 2 && !( attemptNum & 1 )`. -/
def ShouldTrySpecialMovement (a : CombatDodgeSemiRandomlyToTargetAction) : Bool :=
  decide (a.maxAttempts > 2) && !(decide ((a.attemptNum &&& 1) ≠ 0))

end CombatDodgeSemiRandomlyToTargetAction

/-! ## SelectedMiscTactics and Bot (bot.h) -/

/-- The struct SelectedMiscTactics. -/
structure SelectedMiscTactics where
  willAdvance : Bool
  willRetreat : Bool
  shouldBeSilent : Bool
  shouldMoveCarefully : Bool
  shouldAttack : Bool
  shouldKeepXhairOnEnemy : Bool
  willAttackMelee : Bool
  shouldRushHeadless : Bool
deriving DecidableEq, Repr

namespace SelectedMiscTactics

/-- The method Clear: eight assignments of false. -/
def Clear (t : SelectedMiscTactics) : SelectedMiscTactics :=
  let t := { t with willAdvance := false }
  let t := { t with willRetreat := false }
  let t := { t with shouldBeSilent := false }
  let t := { t with shouldMoveCarefully := false }
  let t := { t with shouldAttack := false }
  let t := { t with shouldKeepXhairOnEnemy := false }
  let t := { t with willAttackMelee := false }
  { t with shouldRushHeadless := false }

/-- The constructor `SelectedMiscTactics() { Clear(); }`, run on the
uninitialised storage `raw`. -/
def construct (raw : SelectedMiscTactics) : SelectedMiscTactics := raw.Clear

/-- The method PreferAttackRatherThanRun. -/
def PreferAttackRatherThanRun (t : SelectedMiscTactics) : SelectedMiscTactics :=
  { t with shouldAttack := true, shouldKeepXhairOnEnemy := true }

/-- The method PreferRunRatherThanAttack. -/
def PreferRunRatherThanAttack (t : SelectedMiscTactics) : SelectedMiscTactics :=
  { t with shouldAttack := true, shouldKeepXhairOnEnemy := false }

end SelectedMiscTactics

/-- A call received by the awareness module from its bot. -/
inductive AwarenessCall where
  | OnPain (enemy : Nat) (kick : Rat) (damage : Int)
  | OnEnemyDamaged (enemy : Nat) (damage : Int)
deriving DecidableEq, Repr

/-- The member `awarenessModule` of a bot, as far as bot.h uses it: its frame
affinity and the calls it has received, oldest first. -/
structure BotAwarenessModule where
  frameAffinity : AiFrameAwareUpdatable
  received : List AwarenessCall
deriving DecidableEq, Repr

/-- The member `botPlanner` of a bot, as far as bot.h uses it. -/
structure BotPlanner where
  frameAffinity : AiFrameAwareUpdatable
deriving DecidableEq, Repr

/-- The class Bot, restricted to the members the inline methods below touch;
`self` is the entity number of the bot. -/
structure Bot where
  self : Nat
  frameAffinity : AiFrameAwareUpdatable
  awarenessModule : BotAwarenessModule
  botPlanner : BotPlanner
  selectedTactics : SelectedMiscTactics
deriving DecidableEq, Repr

namespace Bot

/-- The method SetFrameAffinity: the base class, the planner, the awareness module. -/
def SetFrameAffinity (modulo offset : Nat) (b : Bot) : Bot :=
  let b := { b with frameAffinity := b.frameAffinity.SetFrameAffinity modulo offset }
  let b := { b with botPlanner :=
    { b.botPlanner with
      frameAffinity := b.botPlanner.frameAffinity.SetFrameAffinity modulo offset } }
  { b with awarenessModule :=
    { b.awarenessModule with
      frameAffinity := b.awarenessModule.frameAffinity.SetFrameAffinity modulo offset } }

/-- The method OnPain: forwarded unless the enemy is the bot itself. -/
def OnPain (enemy : Nat) (kick : Rat) (damage : Int) (b : Bot) : Bot :=
  if enemy ≠ b.self then
    { b with awarenessModule :=
      { b.awarenessModule with
        received := b.awarenessModule.received ++ [AwarenessCall.OnPain enemy kick damage] } }
  else b

/-- The method OnEnemyDamaged: forwarded unless the enemy is the bot itself. -/
def OnEnemyDamaged (enemy : Nat) (damage : Int) (b : Bot) : Bot :=
  if enemy ≠ b.self then
    { b with awarenessModule :=
      { b.awarenessModule with
        received := b.awarenessModule.received ++ [AwarenessCall.OnEnemyDamaged enemy damage] } }
  else b

/-- The accessor `GetMiscTactics()`. -/
def GetMiscTactics (b : Bot) : SelectedMiscTactics := b.selectedTactics

/-- The accessor `WillAdvance()`. -/
def WillAdvance (b : Bot) : Bool := b.selectedTactics.willAdvance

/-- The accessor `WillRetreat()`. -/
def WillRetreat (b : Bot) : Bool := b.selectedTactics.willRetreat

/-- The accessor `ShouldBeSilent()`. -/
def ShouldBeSilent (b : Bot) : Bool := b.selectedTactics.shouldBeSilent

/-- The accessor `ShouldMoveCarefully()`. -/
def ShouldMoveCarefully (b : Bot) : Bool := b.selectedTactics.shouldMoveCarefully

/-- The accessor `ShouldAttack()`. -/
def ShouldAttack (b : Bot) : Bool := b.selectedTactics.shouldAttack

/-- The accessor `ShouldKeepXhairOnEnemy()`. -/
def ShouldKeepXhairOnEnemy (b : Bot) : Bool := b.selectedTactics.shouldKeepXhairOnEnemy

/-- The accessor `WillAttackMelee()`. -/
def WillAttackMelee (b : Bot) : Bool := b.selectedTactics.willAttackMelee

/-- The accessor `ShouldRushHeadless()`. -/
def ShouldRushHeadless (b : Bot) : Bool := b.selectedTactics.shouldRushHeadless

end Bot

/-- A squad with three members, used as a concrete state. -/
def AiSquad.fullSquad : AiSquad :=
  { AiSquad.construct.PrepareToAddBots with bots := { elems := [1, 2, 3] } }

/-! ## Client ratings (cl_mm.c) -/

/-- The type mm_uuid_t (declared in the matchmaker headers): two 64-bit halves. -/
structure mm_uuid_t where
  hiPart : Nat
  loPart : Nat
deriving DecidableEq, Repr

/-- The value of `Uuid_ZeroUuid()`. -/
def Uuid_ZeroUuid : mm_uuid_t := { hiPart := 0, loPart := 0 }

/-- The constants and helpers that cl_mm.c takes from headers outside the given
sources. `gametypeSize` is `sizeof( cr->gametype )`. -/
structure MMConfig where
  MM_RATING_DEFAULT : Rat
  MM_DEVIATION_DEFAULT : Rat
  gametypeSize : Nat
  MM_LOGIN2_INTERVAL : Int
  MM_LOGIN2_RETRIES : Int
  MM_HEARTBEAT_INTERVAL : Nat
  MM_LOGOUT_TIMEOUT : Int
  CA_DISCONNECTED : Int
  Uuid_IsValidSessionId : mm_uuid_t → Bool

/-- The struct clientRating_t without its `next` link: the ratings list is a
Lean list, head first. -/
structure clientRating_t where
  gametype : List Char
  rating : Rat
  deviation : Rat
  uuid : mm_uuid_t
deriving DecidableEq, Repr

/-- Modelled from the spec: Q_strncpyz of the shared library (not among the
sources), the bounded string copy: at most `size - 1` characters of `src` are
copied and the destination is terminated; with `size = 0` the destination is
left as it was. -/
def Q_strncpyz (dest src : List Char) (size : Nat) : List Char :=
  if size = 0 then dest else src.take (size - 1)

/-- The function cl_ratingAlloc; `allocOk` tells whether MM_Alloc returned a
block (it is taken to be zero-filled). -/
def cl_ratingAlloc (cfg : MMConfig) (allocOk : Bool) (gametype : List Char)
    (rating deviation : Rat) (uuid : mm_uuid_t) : Option clientRating_t :=
  if !allocOk then none
  else
    some
      { gametype := Q_strncpyz [] gametype (cfg.gametypeSize - 1)
        rating := rating
        deviation := deviation
        uuid := uuid }

/-- Modelled from the spec: Rating_Find of the matchmaker library (not among the
sources): the first entry of the list whose gametype is the given string, as a
position in the list. -/
def Rating_Find : List clientRating_t → List Char → Option Nat
  | [], _ => none
  | cr :: rest, gametype =>
    if gametype = cr.gametype then some 0
    else (Rating_Find rest gametype).map fun i => i + 1

/-- A query handed to `sq_api->Send`. -/
inductive SentQuery where
  | heartbeat (session : mm_uuid_t)
  | connect (session : mm_uuid_t)
  | logout (session : mm_uuid_t)
  | login (user password : Option (List Char))
  | steamLogin (id : Nat) (ticket : List Nat)
  | login2 (handle : mm_uuid_t)
deriving DecidableEq, Repr

/-- The state of the matchmaker client: the fields of `cls` that cl_mm.c uses,
its file-scope variables, the cvar cl_mm_session (none for the empty string,
otherwise the uuid whose text it holds), the cvar cl_mm_user and the queries
sent so far (oldest first). -/
structure MMState where
  ratings : List clientRating_t
  mm_session : mm_uuid_t
  mm_ticket : mm_uuid_t
  cl_mm_initialized : Bool
  cl_mm_enabled : Bool
  cl_mm_logout_semaphore : Bool
  cl_mm_login_steam_complete : Bool
  cl_mm_login_steam_ok : Bool
  cl_mm_last_heartbeat : Nat
  cl_mm_loginHandle : mm_uuid_t
  cl_mm_loginState : Nat
  cl_mm_loginTime : Int
  cl_mm_loginRetries : Int
  cl_mm_errmsg : Option (List Char)
  cl_mm_errmsg_size : Nat
  cl_mm_profile_url : Option (List Char)
  cl_mm_profile_url_rml : Option (List Char)
  cl_mm_steam_id : Nat
  cl_mm_steam_token : Option (List Nat)
  cl_mm_mempool : Bool
  sessionCvar : Option mm_uuid_t
  userCvar : List Char
  sent : List SentQuery
deriving DecidableEq, Repr

/-- The enumerator LOGIN_STATE_NONE. -/
def LOGIN_STATE_NONE : Nat := 0

/-- The enumerator LOGIN_STATE_WAITING. -/
def LOGIN_STATE_WAITING : Nat := 1

/-- The enumerator LOGIN_STATE_READY. -/
def LOGIN_STATE_READY : Nat := 2

/-- The enumerator LOGIN_RESPONSE_HANDLE. -/
def LOGIN_RESPONSE_HANDLE : Int := -1

/-- The enumerator LOGIN_RESPONSE_NONE. -/
def LOGIN_RESPONSE_NONE : Int := 0

/-- The enumerator LOGIN_RESPONSE_WAIT. -/
def LOGIN_RESPONSE_WAIT : Int := 1

/-- The enumerator LOGIN_RESPONSE_READY. -/
def LOGIN_RESPONSE_READY : Int := 2

/-- The file-scope initialisers of cl_mm.c and an empty ratings list: the state
at program start. -/
def MMState.start : MMState :=
  { ratings := []
    mm_session := Uuid_ZeroUuid
    mm_ticket := Uuid_ZeroUuid
    cl_mm_initialized := false
    cl_mm_enabled := false
    cl_mm_logout_semaphore := false
    cl_mm_login_steam_complete := false
    cl_mm_login_steam_ok := false
    cl_mm_last_heartbeat := 0
    cl_mm_loginHandle := Uuid_ZeroUuid
    cl_mm_loginState := 0
    cl_mm_loginTime := 0
    cl_mm_loginRetries := 0
    cl_mm_errmsg := none
    cl_mm_errmsg_size := 0
    cl_mm_profile_url := none
    cl_mm_profile_url_rml := none
    cl_mm_steam_id := 0
    cl_mm_steam_token := none
    cl_mm_mempool := false
    sessionCvar := none
    userCvar := []
    sent := [] }

/-- The function CL_AddDefaultRating: the found entry, or a new head entry with
the default rating and deviation. The result is the position of the returned
entry in the ratings list afterwards, none for NULL. -/
def CL_AddDefaultRating (cfg : MMConfig) (allocOk : Bool) (gametype : List Char)
    (st : MMState) : Option Nat × MMState :=
  match Rating_Find st.ratings gametype with
  | some i => (some i, st)
  | none =>
    match cl_ratingAlloc cfg allocOk gametype cfg.MM_RATING_DEFAULT cfg.MM_DEVIATION_DEFAULT
        st.mm_session with
    | none => (none, st)
    | some cr => (some 0, { st with ratings := cr :: st.ratings })

/-- The function CL_AddRating: the found entry with rating and deviation
overwritten, or a new head entry allocated as in the source, with
MM_RATING_DEFAULT and MM_DEVIATION_DEFAULT. -/
def CL_AddRating (cfg : MMConfig) (allocOk : Bool) (gametype : List Char)
    (rating deviation : Rat) (st : MMState) : Option Nat × MMState :=
  match Rating_Find st.ratings gametype with
  | some i =>
    (some i,
      { st with
        ratings := st.ratings.modify
          (fun cr => { cr with rating := rating, deviation := deviation }) i })
  | none =>
    match cl_ratingAlloc cfg allocOk gametype cfg.MM_RATING_DEFAULT cfg.MM_DEVIATION_DEFAULT
        st.mm_session with
    | none => (none, st)
    | some cr => (some 0, { st with ratings := cr :: st.ratings })

/-! ## The matchmaker login state machine (cl_mm.c) -/

/-- Modelled from the spec: Q_vsnprintfz of the shared library (not among the
sources): the formatted text cut to `size - 1` characters, and the length of
the whole formatted text. -/
def Q_vsnprintfz (size : Nat) (text : List Char) : List Char × Nat :=
  (text.take (size - 1), text.length)

/-- The function CL_MM_ErrorMessage, applied to the text that the format and its
arguments produce: the buffer grows when the text does not fit, then the
text is copied into it. -/
def CL_MM_ErrorMessage (_printToConsole : Bool) (text : List Char) (st : MMState) : MMState :=
  let formatted := Q_vsnprintfz 2048 text
  let st :=
    if formatted.2 ≥ st.cl_mm_errmsg_size then
      { st with cl_mm_errmsg_size := formatted.2 + 1, cl_mm_errmsg := some [] }
    else st
  { st with cl_mm_errmsg := some formatted.1 }

/-- The function cl_mm_StringCopy into cl_mm_profile_url and cl_mm_profile_url_rml. -/
def cl_mm_StringCopy (input : Option (List Char)) : Option (List Char) := input

/-- The function CL_MM_CanConnect. -/
def CL_MM_CanConnect (st : MMState) : Bool :=
  decide (st.cl_mm_loginState = LOGIN_STATE_NONE)

/-- The function CL_MM_Initialized. -/
def CL_MM_Initialized (st : MMState) : Bool := st.cl_mm_enabled

/-- Modelled from the spec: the login states of mm_common.h (not among the
sources) that CL_MM_GetLoginState returns: three distinct values. -/
inductive mm_login_state_t where
  | MM_LOGIN_STATE_LOGGED_OUT
  | MM_LOGIN_STATE_IN_PROGRESS
  | MM_LOGIN_STATE_LOGGED_IN
deriving DecidableEq, Repr

/-- The function CL_MM_GetLoginState. -/
def CL_MM_GetLoginState (st : MMState) : mm_login_state_t :=
  if st.cl_mm_loginState = LOGIN_STATE_NONE then
    if st.cl_mm_enabled = true then mm_login_state_t.MM_LOGIN_STATE_LOGGED_IN
    else mm_login_state_t.MM_LOGIN_STATE_LOGGED_OUT
  else mm_login_state_t.MM_LOGIN_STATE_IN_PROGRESS

/-- The function CL_MM_Heartbeat; `createQueryOk` tells whether CreateQuery
returned a query. -/
def CL_MM_Heartbeat (cfg : MMConfig) (createQueryOk : Bool) (st : MMState) : MMState :=
  if !st.cl_mm_enabled || !cfg.Uuid_IsValidSessionId st.mm_session then st
  else if !createQueryOk then st
  else { st with sent := st.sent ++ [SentQuery.heartbeat st.mm_session] }

/-- The function CL_MM_Login2, step 2 of the login process; `now` is the value
of Sys_Milliseconds. -/
def CL_MM_Login2 (createQueryOk : Bool) (now : Int) (st : MMState) : Bool × MMState :=
  if st.cl_mm_loginState ≠ LOGIN_STATE_READY ∨ st.cl_mm_enabled = true then (false, st)
  else if !createQueryOk then (false, st)
  else
    (true,
      { st with
        sent := st.sent ++ [SentQuery.login2 st.cl_mm_loginHandle]
        cl_mm_loginState := LOGIN_STATE_READY
        cl_mm_loginTime := now
        cl_mm_loginRetries := st.cl_mm_loginRetries + 1 })

/-- The function CL_MM_Frame at time `time` (the value of Sys_Milliseconds). -/
def CL_MM_Frame (cfg : MMConfig) (time : Int) (createQueryOk : Bool) (st : MMState) : MMState :=
  let st :=
    if st.cl_mm_loginState = LOGIN_STATE_READY ∧
        st.cl_mm_loginTime + cfg.MM_LOGIN2_INTERVAL ≤ time then
      if st.cl_mm_loginRetries < cfg.MM_LOGIN2_RETRIES then
        (CL_MM_Login2 createQueryOk time st).2
      else
        CL_MM_ErrorMessage true "MM Login: authentication timeout".toList
          { st with cl_mm_loginState := LOGIN_STATE_NONE }
    else st
  if st.cl_mm_enabled then
    if st.cl_mm_logout_semaphore then
      { st with cl_mm_logout_semaphore := false }
    else if (((st.cl_mm_last_heartbeat + cfg.MM_HEARTBEAT_INTERVAL) % 2 ^ 32 : Nat) : Int) < time then
      { CL_MM_Heartbeat cfg createQueryOk st with
        cl_mm_last_heartbeat := (time % 2 ^ 32).toNat }
    else st
  else st

/-- The callback cl_mm_logout_done. -/
def cl_mm_logout_done (st : MMState) : MMState :=
  { st with
    cl_mm_logout_semaphore := true
    cl_mm_enabled := false
    cl_mm_loginState := LOGIN_STATE_NONE
    mm_session := Uuid_ZeroUuid
    cl_mm_profile_url := cl_mm_StringCopy none
    cl_mm_profile_url_rml := cl_mm_StringCopy none }

/-- One element of the "ratings" array of a login response; `allocOk` tells
whether MM_Alloc returns a block during the CL_AddRating call for it. -/
structure RatingElement where
  gametype : List Char
  rating : Rat
  deviation : Rat
  allocOk : Bool
deriving DecidableEq, Repr

/-- The "player_info" section of a login response. -/
structure PlayerInfo where
  profile_web_url : Option (List Char)
  profile_rml_url : Option (List Char)
deriving DecidableEq, Repr

/-- The root section of a parsed login response: the numbers after their cast to
int, and the uuids that Uuid_FromString parsed (none when parsing fails). -/
structure LoginResponseRoot where
  status : Int
  ready : Int
  handle : Option mm_uuid_t
  session_id : Option mm_uuid_t
  ratings : Option (List RatingElement)
  player_info : Option PlayerInfo
deriving DecidableEq, Repr

/-- What the callback cl_mm_login_done is called with: the success flag, the
parsed root (none for NULL) and the text of the parse-failure message. -/
structure QueryResult where
  success : Bool
  root : Option LoginResponseRoot
  parseFailureText : List Char
deriving DecidableEq, Repr

/-- The loop of cl_mm_login_done over the ratings array: CL_AddRating per element. -/
def cl_mm_login_addRatings (cfg : MMConfig) : List RatingElement → MMState → MMState
  | [], st => st
  | e :: rest, st =>
    cl_mm_login_addRatings cfg rest (CL_AddRating cfg e.allocOk e.gametype e.rating e.deviation st).2

/-- The label `failure` of cl_mm_login_done. -/
def cl_mm_login_failure (st : MMState) : MMState :=
  { CL_MM_ErrorMessage true "MM Login failure".toList st with
    cl_mm_loginHandle := Uuid_ZeroUuid
    cl_mm_loginState := LOGIN_STATE_NONE }

/-- The three-way branch of cl_mm_login_done on the login state and the `ready`
value; none stands for `goto failure`. -/
def cl_mm_login_branches (cfg : MMConfig) (root : LoginResponseRoot) (now : Int)
    (st : MMState) : Option MMState :=
  if st.cl_mm_loginState = LOGIN_STATE_WAITING then
    if root.ready = LOGIN_RESPONSE_HANDLE then
      match root.handle with
      | none => none
      | some handle =>
        some
          { st with
            cl_mm_loginHandle := handle
            cl_mm_loginState := LOGIN_STATE_READY
            cl_mm_loginTime := now }
    else none
  else if st.cl_mm_loginState = LOGIN_STATE_READY ∧ root.ready = LOGIN_RESPONSE_READY then
    match root.session_id with
    | none => none
    | some session_id =>
      if !cfg.Uuid_IsValidSessionId session_id then none
      else
        let st :=
          { st with
            mm_session := session_id
            cl_mm_loginState := LOGIN_STATE_NONE
            cl_mm_enabled := true }
        let st :=
          match root.ratings with
          | some elements => cl_mm_login_addRatings cfg elements st
          | none => st
        let st :=
          match root.player_info with
          | some info =>
            { st with
              cl_mm_profile_url := cl_mm_StringCopy info.profile_web_url
              cl_mm_profile_url_rml := cl_mm_StringCopy info.profile_rml_url }
          | none => st
        some st
  else some st

/-- The final check of cl_mm_login_done: with the login state back at NONE the
error message is emptied and the session id is written to the cvar. -/
def cl_mm_login_final (st : MMState) : MMState :=
  if st.cl_mm_loginState = LOGIN_STATE_NONE then
    { CL_MM_ErrorMessage false [] st with sessionCvar := some st.mm_session }
  else st

/-- The callback cl_mm_login_done. -/
def cl_mm_login_done (cfg : MMConfig) (res : QueryResult) (now : Int) (st : MMState) : MMState :=
  if st.cl_mm_loginState = LOGIN_STATE_NONE then st
  else
    let st :=
      { st with cl_mm_enabled := false, mm_session := Uuid_ZeroUuid, sessionCvar := none }
    if !res.success then
      { CL_MM_ErrorMessage true "MM Login: StatQuery error".toList st with
        cl_mm_loginState := LOGIN_STATE_NONE }
    else
      match res.root with
      | none => cl_mm_login_failure (CL_MM_ErrorMessage true res.parseFailureText st)
      | some root =>
        if root.status = 0 then cl_mm_login_failure st
        else if root.ready = LOGIN_RESPONSE_NONE then cl_mm_login_failure st
        else
          match cl_mm_login_branches cfg root now st with
          | none => cl_mm_login_failure st
          | some st1 => cl_mm_login_final st1

/-- What a login attempt reads from its surroundings: the client state, whether
CreateQuery returns a query, the clock, whether Steam_GetAuthSessionTicket
accepted the request and the ticket its callback delivered in time (if any),
the cvar cl_mm_autologin, the password MM_PasswordRead finds, and the value of
Steam_GetSteamID. -/
structure LoginEnv where
  clientState : Int
  createQueryOk : Bool
  now : Int
  steamTicketRequested : Bool
  steamCallback : Option (List Nat)
  autologin : Bool
  storedPassword : Option (List Char)
  steamId : Nat
deriving DecidableEq, Repr

/-- The function CL_MM_LoginReal, step 1 of the login process. -/
def CL_MM_LoginReal (cfg : MMConfig) (user password : Option (List Char)) (env : LoginEnv)
    (st : MMState) : Bool × MMState :=
  if st.cl_mm_loginState ≥ LOGIN_STATE_WAITING ∨ st.cl_mm_enabled = true then (false, st)
  else if env.clientState > cfg.CA_DISCONNECTED then
    (false,
      CL_MM_ErrorMessage true "MM Login: Can't login to MM while connected to server".toList st)
  else if !env.createQueryOk then (false, st)
  else
    let query :=
      if st.cl_mm_login_steam_ok then
        SentQuery.steamLogin st.cl_mm_steam_id (st.cl_mm_steam_token.getD [])
      else SentQuery.login user password
    (true,
      { st with
        sent := st.sent ++ [query]
        cl_mm_loginState := LOGIN_STATE_WAITING
        cl_mm_loginRetries := 0
        cl_mm_loginTime := env.now
        cl_mm_profile_url := cl_mm_StringCopy none
        cl_mm_profile_url_rml := cl_mm_StringCopy none })

/-- The callback CL_MM_LoginSteamCb with the ticket bytes `data`. -/
def CL_MM_LoginSteamCb (data : List Nat) (st : MMState) : MMState :=
  if st.cl_mm_loginState ≥ LOGIN_STATE_WAITING ∨ st.cl_mm_enabled = true then st
  else
    let st := { st with cl_mm_steam_token := some data, cl_mm_login_steam_complete := true }
    if data.length > 0 then { st with cl_mm_login_steam_ok := true } else st

/-- The function CL_MM_LoginSteam: the ticket request and the wait for its
callback, which either arrives (with data) or times out. -/
def CL_MM_LoginSteam (env : LoginEnv) (st : MMState) : Bool × MMState :=
  if st.cl_mm_loginState ≥ LOGIN_STATE_WAITING ∨ st.cl_mm_enabled = true then (false, st)
  else
    let st :=
      { st with
        cl_mm_login_steam_complete := false
        cl_mm_login_steam_ok := false
        cl_mm_steam_token := none }
    if !env.steamTicketRequested then (false, st)
    else
      let st :=
        match env.steamCallback with
        | some data => CL_MM_LoginSteamCb data st
        | none => st
      (st.cl_mm_login_steam_ok, st)

/-- The part of CL_MM_Login after the Steam attempt: user and password are
resolved, then step 1 starts. -/
def CL_MM_Login_password (cfg : MMConfig) (user password : Option (List Char))
    (env : LoginEnv) (st : MMState) : Bool × MMState :=
  let userGiven := user.getD []
  let st := if userGiven ≠ [] ∧ env.autologin = true then { st with userCvar := userGiven } else st
  let userName := if userGiven = [] then st.userCvar else userGiven
  if userName = [] then (false, st)
  else
    let pass := if password.getD [] = [] then env.storedPassword else password
    match pass with
    | none => (false, CL_MM_ErrorMessage true "MM Login: Password error".toList st)
    | some pw => CL_MM_LoginReal cfg (some userName) (some pw) env st

/-- The function CL_MM_Login. -/
def CL_MM_Login (cfg : MMConfig) (user password : Option (List Char)) (env : LoginEnv)
    (st : MMState) : Bool × MMState :=
  if st.cl_mm_steam_id ≠ 0 then
    let steam := CL_MM_LoginSteam env st
    if steam.1 then (true, (CL_MM_LoginReal cfg none none env steam.2).2)
    else CL_MM_Login_password cfg user password env steam.2
  else CL_MM_Login_password cfg user password env st

/-- The function CL_MM_Connect. -/
def CL_MM_Connect (createQueryOk : Bool) (st : MMState) : Bool × MMState :=
  let st := { st with mm_ticket := Uuid_ZeroUuid }
  if !st.cl_mm_enabled then (false, st)
  else if !createQueryOk then (false, st)
  else (true, { st with sent := st.sent ++ [SentQuery.connect st.mm_session] })

/-- The callback cl_mm_connect_done: `ticket` is none for a response without a
root, otherwise what Uuid_FromString made of the "ticket" field. -/
def cl_mm_connect_done (success : Bool) (ticket : Option (Option mm_uuid_t)) (st : MMState) :
    MMState :=
  if !success then CL_MM_ErrorMessage true "MM Connect: StatQuery error".toList st
  else
    match ticket with
    | none => st
    | some none => CL_MM_ErrorMessage true "MM Connect: illegal ticket string".toList st
    | some (some t) => { st with mm_ticket := t }

/-- A callback that `sq_api->Poll` may run. -/
inductive Callback where
  | login_done (res : QueryResult) (now : Int)
  | logout_done
  | heartbeat_done
  | connect_done (success : Bool) (ticket : Option (Option mm_uuid_t))
deriving DecidableEq, Repr

/-- Running one callback. -/
def Callback.run (cfg : MMConfig) : Callback → MMState → MMState
  | .login_done res now, st => cl_mm_login_done cfg res now st
  | .logout_done, st => cl_mm_logout_done st
  | .heartbeat_done, st => st
  | .connect_done success ticket, st => cl_mm_connect_done success ticket st

/-- One call of `sq_api->Poll`: the callbacks of the finished queries, in order. -/
def sq_api_Poll (cfg : MMConfig) : List Callback → MMState → MMState
  | [], st => st
  | cb :: rest, st => sq_api_Poll cfg rest (cb.run cfg st)

/-- What CL_MM_Logout reads from its surroundings: the client state, whether
CreateQuery returns a query, and for a forced logout the callbacks run by each
Poll before the timeout. -/
structure LogoutEnv where
  clientState : Int
  createQueryOk : Bool
  polls : List (List Callback)
deriving DecidableEq, Repr

/-- The wait loop of a forced logout:
`while( !cl_mm_logout_semaphore && Sys_Milliseconds() < timeout + MM_LOGOUT_TIMEOUT )`;
the list ends where the timeout strikes. -/
def CL_MM_Logout_wait (cfg : MMConfig) : List (List Callback) → MMState → MMState
  | [], st => st
  | round :: rest, st =>
    if st.cl_mm_logout_semaphore then st
    else CL_MM_Logout_wait cfg rest (sq_api_Poll cfg round st)

/-- The function CL_MM_Logout. -/
def CL_MM_Logout (cfg : MMConfig) (force : Bool) (env : LogoutEnv) (st : MMState) :
    Bool × MMState :=
  if !st.cl_mm_enabled || !cfg.Uuid_IsValidSessionId st.mm_session then
    (false, CL_MM_ErrorMessage true "MM Logout: not logged in".toList st)
  else if env.clientState > cfg.CA_DISCONNECTED then
    (false,
      CL_MM_ErrorMessage true
        "MM Logout: can't logout from MM while connected to server".toList st)
  else if !env.createQueryOk then (false, st)
  else
    let st :=
      { st with
        cl_mm_logout_semaphore := false
        sent := st.sent ++ [SentQuery.logout st.mm_session] }
    if force then
      let st := CL_MM_Logout_wait cfg env.polls st
      let result := st.cl_mm_logout_semaphore
      let st :=
        if !st.cl_mm_logout_semaphore then
          CL_MM_ErrorMessage true "MM Logout: Failed to force logout".toList st
        else st
      (result, { st with cl_mm_logout_semaphore := false })
    else (true, st)

/-- The function CL_MM_Init. -/
def CL_MM_Init (cfg : MMConfig) (env : LoginEnv) (st : MMState) : MMState :=
  if st.cl_mm_initialized then st
  else
    let st :=
      { st with
        cl_mm_enabled := false
        mm_session := Uuid_ZeroUuid
        cl_mm_loginHandle := Uuid_ZeroUuid
        cl_mm_loginState := LOGIN_STATE_NONE
        cl_mm_loginTime := 0
        cl_mm_loginRetries := 0 }
    let st :=
      if !st.cl_mm_mempool then { st with cl_mm_errmsg := none, cl_mm_errmsg_size := 0 } else st
    let st := { st with cl_mm_mempool := true, sessionCvar := none, cl_mm_steam_id := env.steamId }
    let st :=
      if env.autologin = true ∨ st.cl_mm_steam_id ≠ 0 then (CL_MM_Login cfg none none env st).2
      else st
    { st with cl_mm_initialized := true }

/-- The function CL_MM_Shutdown. -/
def CL_MM_Shutdown (cfg : MMConfig) (logout : Bool) (env : LogoutEnv) (st : MMState) : MMState :=
  if !st.cl_mm_initialized then st
  else
    let st := if logout && st.cl_mm_enabled then (CL_MM_Logout cfg true env st).2 else st
    { st with
      sessionCvar := none
      mm_session := Uuid_ZeroUuid
      mm_ticket := Uuid_ZeroUuid
      cl_mm_loginHandle := Uuid_ZeroUuid
      cl_mm_loginState := LOGIN_STATE_NONE
      cl_mm_loginTime := 0
      cl_mm_loginRetries := 0
      cl_mm_mempool := false
      cl_mm_errmsg := none
      cl_mm_errmsg_size := 0
      cl_mm_profile_url := none
      cl_mm_profile_url_rml := none
      cl_mm_steam_token := none
      cl_mm_initialized := false }

/-- The entry points of cl_mm.c and the callbacks it registers, each with what it
reads from its surroundings. -/
inductive MMEvent where
  | Init (env : LoginEnv)
  | Shutdown (logout : Bool) (env : LogoutEnv)
  | Login (user password : Option (List Char)) (env : LoginEnv)
  | LoginReal (user password : Option (List Char)) (env : LoginEnv)
  | Login2 (createQueryOk : Bool) (now : Int)
  | login_done (res : QueryResult) (now : Int)
  | logout_done
  | Logout (force : Bool) (env : LogoutEnv)
  | Frame (time : Int) (createQueryOk : Bool)
  | Heartbeat (createQueryOk : Bool)
  | Connect (createQueryOk : Bool)
  | connect_done (success : Bool) (ticket : Option (Option mm_uuid_t))
  | AddRating (allocOk : Bool) (gametype : List Char) (rating deviation : Rat)
  | AddDefaultRating (allocOk : Bool) (gametype : List Char)
deriving DecidableEq, Repr

/-- The state after one event. -/
def MMEvent.apply (cfg : MMConfig) : MMEvent → MMState → MMState
  | .Init env, st => CL_MM_Init cfg env st
  | .Shutdown logout env, st => CL_MM_Shutdown cfg logout env st
  | .Login user password env, st => (CL_MM_Login cfg user password env st).2
  | .LoginReal user password env, st => (CL_MM_LoginReal cfg user password env st).2
  | .Login2 createQueryOk now, st => (CL_MM_Login2 createQueryOk now st).2
  | .login_done res now, st => cl_mm_login_done cfg res now st
  | .logout_done, st => cl_mm_logout_done st
  | .Logout force env, st => (CL_MM_Logout cfg force env st).2
  | .Frame time createQueryOk, st => CL_MM_Frame cfg time createQueryOk st
  | .Heartbeat createQueryOk, st => CL_MM_Heartbeat cfg createQueryOk st
  | .Connect createQueryOk, st => (CL_MM_Connect createQueryOk st).2
  | .connect_done success ticket, st => cl_mm_connect_done success ticket st
  | .AddRating allocOk gametype rating deviation, st =>
    (CL_AddRating cfg allocOk gametype rating deviation st).2
  | .AddDefaultRating allocOk gametype, st => (CL_AddDefaultRating cfg allocOk gametype st).2

/-- The state after a sequence of events, oldest first. -/
def MMEvent.runAll (cfg : MMConfig) : List MMEvent → MMState → MMState
  | [], st => st
  | e :: rest, st => MMEvent.runAll cfg rest (e.apply cfg st)

/-- A configuration for concrete runs: default rating 0 and deviation 1, a
gametype buffer of 32 bytes, and every uuid but the zero uuid a valid session id. -/
def MMConfig.sample : MMConfig :=
  { MM_RATING_DEFAULT := 0
    MM_DEVIATION_DEFAULT := 1
    gametypeSize := 32
    MM_LOGIN2_INTERVAL := 1000
    MM_LOGIN2_RETRIES := 7
    MM_HEARTBEAT_INTERVAL := 180000
    MM_LOGOUT_TIMEOUT := 3000
    CA_DISCONNECTED := 1
    Uuid_IsValidSessionId := fun u => decide (u ≠ Uuid_ZeroUuid) }

/-- The gametype name "duel". -/
def gametypeDuel : List Char := ['d', 'u', 'e', 'l']

/-- A gametype name of 40 characters, longer than the sample gametype buffer. -/
def gametypeLong : List Char := List.replicate 40 'x'

/-- The property that a logged-in client has no login in progress:
cl_mm_enabled implies cl_mm_loginState == LOGIN_STATE_NONE. -/
def MMState.loggedInIdle (st : MMState) : Prop :=
  st.cl_mm_enabled = true → st.cl_mm_loginState = LOGIN_STATE_NONE

/-- A login response carrying a handle (answer to step 1). -/
def QueryResult.sampleHandle : QueryResult :=
  { success := true
    root := some
      { status := 1, ready := -1, handle := some { hiPart := 0, loPart := 5 },
        session_id := none, ratings := none, player_info := none }
    parseFailureText := [] }

/-- A login response carrying a session id and one rating (answer to step 2). -/
def QueryResult.sampleReady : QueryResult :=
  { success := true
    root := some
      { status := 1, ready := 2, handle := none,
        session_id := some { hiPart := 0, loPart := 9 },
        ratings := some [{ gametype := gametypeDuel, rating := 1500, deviation := 250,
                           allocOk := true }],
        player_info := none }
    parseFailureText := [] }

/-- Surroundings of a login from the console: disconnected, queries can be
created, no Steam, no autologin. -/
def LoginEnv.sample : LoginEnv :=
  { clientState := 1, createQueryOk := true, now := 0, steamTicketRequested := false,
    steamCallback := none, autologin := false, storedPassword := none, steamId := 0 }

/-- A complete login: initialisation, `mm_login u p`, the handle response and
the session response. -/
def MMEvent.sampleLogin : List MMEvent :=
  [MMEvent.Init LoginEnv.sample,
   MMEvent.Login (some ['u']) (some ['p']) LoginEnv.sample,
   MMEvent.login_done QueryResult.sampleHandle 10,
   MMEvent.login_done QueryResult.sampleReady 20]

/-! ## Error message and profile URL getters (cl_mm.c) -/

/-- The function CL_MM_GetLastErrorMessage. The buffer is none for a NULL pointer
and otherwise holds a string; the result is the returned size_t (of 64 bits)
and the buffer afterwards. -/
def CL_MM_GetLastErrorMessage (buffer : Option (List Char)) (buffer_size : Nat)
    (st : MMState) : Nat × Option (List Char) :=
  match buffer with
  | none => (0, none)
  | some content =>
    if buffer_size = 0 then (0, some content)
    else
      match st.cl_mm_errmsg with
      | none => (0, some [])
      | some msg =>
        if msg = [] then (0, some [])
        else
          ((st.cl_mm_errmsg_size + 2 ^ 64 - 1) % 2 ^ 64,
            some (Q_strncpyz content msg buffer_size))

/-- The function CL_MM_GetProfileURL, with the same conventions. -/
def CL_MM_GetProfileURL (buffer : Option (List Char)) (buffer_size : Nat) (rml : Bool)
    (st : MMState) : Nat × Option (List Char) :=
  let profile_url := if rml then st.cl_mm_profile_url_rml else st.cl_mm_profile_url
  match buffer with
  | none => (0, none)
  | some content =>
    if buffer_size = 0 then (0, some content)
    else
      match profile_url with
      | none => (0, some [])
      | some url =>
        if url = [] then (0, some [])
        else (url.length, some (Q_strncpyz content url buffer_size))

/-- A sequence of CL_MM_ErrorMessage calls, oldest first: the console flag and
the formatted text of each. -/
def CL_MM_ErrorMessages : List (Bool × List Char) → MMState → MMState
  | [], st => st
  | c :: rest, st => CL_MM_ErrorMessages rest (CL_MM_ErrorMessage c.1 c.2 st)

/-- Surroundings of a login attempted while connected to a server. -/
def LoginEnv.connected : LoginEnv :=
  { LoginEnv.sample with clientState := 2 }

/-- Surroundings of a logout while disconnected, queries can be created, no
callbacks polled. -/
def LogoutEnv.sample : LogoutEnv :=
  { clientState := 1, createQueryOk := true, polls := [] }

/-- Two failing requests: `mm_login u p` while connected to a server, then
`mm_logout` while not logged in. -/
def MMEvent.sampleTwoErrors : List MMEvent :=
  [MMEvent.Init LoginEnv.sample,
   MMEvent.Login (some ['u']) (some ['p']) LoginEnv.connected,
   MMEvent.Logout false LogoutEnv.sample]

/-- The callback cl_mm_login_done with its assertion checked:
the final check, where none stands for a failed
`assert( Uuid_IsValidSessionId( cls.mm_session ) )`. -/
def cl_mm_login_final_checked (cfg : MMConfig) (st : MMState) : Option MMState :=
  if st.cl_mm_loginState = LOGIN_STATE_NONE then
    if cfg.Uuid_IsValidSessionId st.mm_session then
      some { CL_MM_ErrorMessage false [] st with sessionCvar := some st.mm_session }
    else none
  else some st

/-- The callback cl_mm_login_done with its assertion checked: none stands for a
failed assertion, some for the state in which the callback returns. -/
def cl_mm_login_done_checked (cfg : MMConfig) (res : QueryResult) (now : Int)
    (st : MMState) : Option MMState :=
  if st.cl_mm_loginState = LOGIN_STATE_NONE then some st
  else
    let st :=
      { st with cl_mm_enabled := false, mm_session := Uuid_ZeroUuid, sessionCvar := none }
    if !res.success then
      some
        { CL_MM_ErrorMessage true "MM Login: StatQuery error".toList st with
          cl_mm_loginState := LOGIN_STATE_NONE }
    else
      match res.root with
      | none => some (cl_mm_login_failure (CL_MM_ErrorMessage true res.parseFailureText st))
      | some root =>
        if root.status = 0 then some (cl_mm_login_failure st)
        else if root.ready = LOGIN_RESPONSE_NONE then some (cl_mm_login_failure st)
        else
          match cl_mm_login_branches cfg root now st with
          | none => some (cl_mm_login_failure st)
          | some st1 => cl_mm_login_final_checked cfg st1

/-- A client in step 2 of the login process (waiting for validation). -/
def MMState.sampleStep2 : MMState :=
  { MMState.start with cl_mm_initialized := true, cl_mm_loginState := LOGIN_STATE_READY }

/-! ## RequestForKeysLauncher (ui_cef/RenderProcessHandler.cpp) -/

/-- A JavaScript value as the launcher sees it through CefV8Value: an integer,
an array, a function, or any other value. -/
inductive CefV8Value where
  | int (value : Int)
  | array (elems : List CefV8Value)
  | function (id : Nat)
  | other

namespace CefV8Value

/-- The method IsInt. -/
def IsInt : CefV8Value → Bool
  | .int _ => true
  | _ => false

/-- The method IsArray. -/
def IsArray : CefV8Value → Bool
  | .array _ => true
  | _ => false

/-- The method GetIntValue (0 for a value that is not an integer). -/
def GetIntValue : CefV8Value → Int
  | .int value => value
  | _ => 0

/-- The elements of an array value; a value that is not an array has none. -/
def elements : CefV8Value → List CefV8Value
  | .array elems => elems
  | _ => []

/-- The method GetArrayLength. -/
def GetArrayLength (v : CefV8Value) : Nat := v.elements.length

/-- The method GetValue( index ) of an array value. -/
def GetValue (v : CefV8Value) (index : Nat) : CefV8Value := v.elements.getD index .other

end CefV8Value

/-- The argument list of a process message (CefListValue), as far as the
launcher uses it: a cell holds an int or nothing. -/
structure CefListValue where
  cells : List (Option Int)
deriving DecidableEq, Repr

namespace CefListValue

/-- The method SetInt( index, value ): the list grows with empty cells when the
index lies beyond its end. -/
def SetInt (l : CefListValue) (index : Nat) (value : Int) : CefListValue :=
  if index < l.cells.length then { cells := l.cells.set index (some value) }
  else { cells := l.cells ++ List.replicate (index - l.cells.length) none ++ [some value] }

end CefListValue

/-- The text the stringstream of SetKeysAsArgs produces for index `i`. -/
def notAnIntegerMessage (i : Nat) : String :=
  "An array element at index " ++ toString i ++ " is not an integer"

/-- The loop of SetKeysAsArgs from index `i` with `remaining = length - i`
iterations left: the result, the message arguments and the exception. -/
def SetKeysAsArgs_loop (keysArray : CefV8Value) :
    Nat → Nat → Nat → CefListValue → String → Bool × CefListValue × String
  | 0, _, _, messageArgs, exception => (true, messageArgs, exception)
  | remaining + 1, i, argNum, messageArgs, exception =>
    let elemValue := keysArray.GetValue i
    if !elemValue.IsInt then (false, messageArgs, notAnIntegerMessage i)
    else
      SetKeysAsArgs_loop keysArray remaining (i + 1) (argNum + 1)
        (messageArgs.SetInt argNum elemValue.GetIntValue) exception

/-- The function SetKeysAsArgs: the result, the message arguments and the
exception afterwards. -/
def SetKeysAsArgs (jsArgs : List CefV8Value) (messageArgs : CefListValue) (exception : String) :
    Bool × CefListValue × String :=
  if jsArgs.length < 2 then (true, messageArgs, exception)
  else
    let keysArray := jsArgs.headD .other
    SetKeysAsArgs_loop keysArray keysArray.GetArrayLength 0 1 messageArgs exception

/-- The pending requests of a launcher: the id the next request gets, the ids of
the requests created so far and the committed requests with the arguments of
their messages. -/
structure LauncherState where
  nextId : Nat
  created : List Nat
  committed : List (Nat × CefListValue)
deriving DecidableEq, Repr

/-- The method RequestForKeysLauncher::StartExec: the launcher and the exception
afterwards. The check PendingRequestLauncher::ValidateCallback is the parameter
`validate` (none for a valid callback, otherwise the exception it sets);
NewRequest registers a request under a fresh id, NewMessage gives an empty
argument list and Commit records the request with its message. -/
def StartExec (validate : CefV8Value → Option String) (jsArgs : List CefV8Value)
    (st : LauncherState) (exception : String) : LauncherState × String :=
  if jsArgs.length ≠ 1 ∧ jsArgs.length ≠ 2 then
    (st, "Illegal arguments list size, 1 or 2 arguments are expected")
  else if jsArgs.length = 2 ∧ (jsArgs.headD .other).IsArray = false then
    (st, "An array is expected as a first argument in this case\n")
  else
    match validate (jsArgs.getLastD .other) with
    | some text => (st, text)
    | none =>
      let requestId := st.nextId
      let st := { st with nextId := st.nextId + 1, created := st.created ++ [requestId] }
      let messageArgs := CefListValue.SetInt { cells := [] } 0 requestId
      let keys := SetKeysAsArgs jsArgs messageArgs exception
      if !keys.1 then (st, keys.2.2)
      else ({ st with committed := st.committed ++ [(requestId, keys.2.1)] }, keys.2.2)

/-- A launcher without requests. -/
def LauncherState.fresh : LauncherState := { nextId := 1, created := [], committed := [] }

/-- A callback check that accepts functions only. -/
def validateFunction : CefV8Value → Option String
  | .function _ => none
  | _ => some "A callback is expected"

/-- A bot with entity number 7 that has received no calls, used as a concrete state. -/
def Bot.sample : Bot :=
  { self := 7
    frameAffinity := { frameAffinityModulo := 4, frameAffinityOffset := 1 }
    awarenessModule :=
      { frameAffinity := { frameAffinityModulo := 4, frameAffinityOffset := 1 }, received := [] }
    botPlanner := { frameAffinity := { frameAffinityModulo := 4, frameAffinityOffset := 1 } }
    selectedTactics :=
      { willAdvance := false, willRetreat := false, shouldBeSilent := false,
        shouldMoveCarefully := false, shouldAttack := false, shouldKeepXhairOnEnemy := false,
        willAttackMelee := false, shouldRushHeadless := false } }

/-- The root of the sample session response. -/
def LoginResponseRoot.sampleReady : LoginResponseRoot :=
  { status := 1, ready := 2, handle := none,
    session_id := some { hiPart := 0, loPart := 9 },
    ratings := some [{ gametype := gametypeDuel, rating := 1500, deviation := 250,
                       allocOk := true }],
    player_info := none }

/-- The state in which the sample session response reaches the final check of
cl_mm_login_done when it arrives in step 2. -/
def MMState.sampleAtFinalCheck : MMState :=
  { MMState.sampleStep2 with
    mm_session := { hiPart := 0, loPart := 9 }
    cl_mm_loginState := LOGIN_STATE_NONE
    cl_mm_enabled := true
    ratings :=
      [{ gametype := gametypeDuel, rating := 0, deviation := 1,
         uuid := { hiPart := 0, loPart := 9 } }] }

theorem CArray.ext_cells {α : Type} {n : Nat} {a b : CArray α n} (h : a.cells = b.cells) :
    a = b := by
  cases a; cases b; cases h; rfl

theorem std_fill_cells {α : Type} {n : Nat} (count : Nat) :
    ∀ (a : CArray α n) (start : Nat) (value : α) (i : Nat) (d : α),
      (std_fill a start count value).cells.getD i d =
        if start ≤ i ∧ i < start + count ∧ i < n then value else a.cells.getD i d := by
  induction count with
  | zero =>
    intro a start value i d
    have h0 : ¬ (start ≤ i ∧ i < start + 0 ∧ i < n) := by omega
    rw [if_neg h0]
    rfl
  | succ k ih =>
    intro a start value i d
    rw [std_fill, ih]
    by_cases h1 : start + 1 ≤ i ∧ i < start + 1 + k ∧ i < n
    · have h2 : start ≤ i ∧ i < start + (k + 1) ∧ i < n := by omega
      rw [if_pos h1, if_pos h2]
    · rw [if_neg h1]
      by_cases h3 : start = i
      · subst h3
        by_cases h4 : start < n
        · have h2 : start ≤ start ∧ start < start + (k + 1) ∧ start < n := by omega
          have hlen : start < a.cells.length := by rw [a.size_eq]; exact h4
          rw [if_pos h2]
          simp [CArray.set, List.getD_eq_getElem?_getD, List.getElem?_set, hlen]
        · have h2 : ¬ (start ≤ start ∧ start < start + (k + 1) ∧ start < n) := by omega
          have hlen : ¬ start < a.cells.length := by rw [a.size_eq]; exact h4
          rw [if_neg h2]
          have hnone : a.cells[start]? = none := List.getElem?_eq_none (by omega)
          simp [CArray.set, List.getD_eq_getElem?_getD, List.getElem?_set, hlen, hnone]
      · have h2 : ¬ (start ≤ i ∧ i < start + (k + 1) ∧ i < n) := by omega
        rw [if_neg h2]
        simp [CArray.set, List.getD_eq_getElem?_getD, List.getElem?_set, h3]

theorem std_fill_all {α : Type} {n : Nat} (a : CArray α n) (value : α) :
    (std_fill a 0 n value).cells = List.replicate n value := by
  apply List.ext_getElem
  · rw [(std_fill a 0 n value).size_eq, List.length_replicate]
  · intro i h1 h2
    have hi : i < n := by rw [← (std_fill a 0 n value).size_eq]; exact h1
    have h := std_fill_cells n a 0 value i value
    have hc : 0 ≤ i ∧ i < 0 + n ∧ i < n := by omega
    rw [if_pos hc, List.getD_eq_getElem?_getD, List.getElem?_eq_getElem h1] at h
    simp only [Option.getD_some] at h
    rw [h, List.getElem_replicate]

/-! ## CachedTravelTimesMatrix -/

theorem CachedTravelTimesMatrix.Clear_cells {MAX_CLIENTS : Nat}
    (m : CachedTravelTimesMatrix MAX_CLIENTS) :
    m.Clear.aasTravelTimes.cells = List.replicate (MAX_CLIENTS * MAX_CLIENTS) (-1) :=
  std_fill_all m.aasTravelTimes (-1)

theorem CachedTravelTimesMatrix.Clear_cell {MAX_CLIENTS : Nat}
    (m : CachedTravelTimesMatrix MAX_CLIENTS) (i : Nat) (hi : i < MAX_CLIENTS * MAX_CLIENTS) :
    m.Clear.cell i = -1 := by
  unfold CachedTravelTimesMatrix.cell CArray.read
  rw [CachedTravelTimesMatrix.Clear_cells, List.getD_eq_getElem?_getD,
    List.getElem?_eq_getElem (by rw [List.length_replicate]; exact hi)]
  simp

/-- Claim C1. Whatever the table held before, after Clear every one of the
MAX_CLIENTS * MAX_CLIENTS cells holds the sentinel -1 (the cells are exactly
MAX_CLIENTS * MAX_CLIENTS copies of -1), and Clear is idempotent. -/
theorem CachedTravelTimesMatrix_Clear_resets_every_entry {MAX_CLIENTS : Nat}
    (m : CachedTravelTimesMatrix MAX_CLIENTS) :
    m.Clear.aasTravelTimes.cells.length = MAX_CLIENTS * MAX_CLIENTS ∧
      m.Clear.aasTravelTimes.cells = List.replicate (MAX_CLIENTS * MAX_CLIENTS) (-1) ∧
      (∀ i : Fin (MAX_CLIENTS * MAX_CLIENTS), m.Clear.cell i.val = -1) ∧
      m.Clear.Clear = m.Clear := by
  refine ⟨m.Clear.aasTravelTimes.size_eq, CachedTravelTimesMatrix.Clear_cells m,
    fun i => CachedTravelTimesMatrix.Clear_cell m i.val i.isLt, ?_⟩
  · have h1 := CachedTravelTimesMatrix.Clear_cells m
    have h2 := CachedTravelTimesMatrix.Clear_cells m.Clear
    have h3 : m.Clear.Clear.aasTravelTimes = m.Clear.aasTravelTimes :=
      CArray.ext_cells (h2.trans h1.symm)
    cases hmc : m.Clear.Clear with
    | mk x =>
      cases hm : m.Clear with
      | mk y =>
        rw [hmc, hm] at h3
        simp only at h3
        rw [h3]

theorem StaticVector.push_back_size {α : Type} {N : Nat} (v w : StaticVector α N) (x : α)
    (h : v.push_back x = some w) : w.size ≤ N := by
  unfold StaticVector.push_back at h
  split at h
  · rename_i hlt
    cases h
    simp only [StaticVector.size, List.length_append, List.length_singleton] at hlt ⊢
    omega
  · cases h

theorem StaticVector.remove_size {α : Type} [DecidableEq α] {N : Nat} (v : StaticVector α N)
    (x : α) : (v.remove x).size ≤ v.size := by
  simp only [StaticVector.size, StaticVector.remove]
  rw [List.length_erase]
  split <;> omega

theorem SquadOp.apply_size (op : SquadOp) (s t : AiSquad) (h : op.apply s = some t)
    (hs : s.bots.size ≤ AiSquad.MAX_SIZE) : t.bots.size ≤ AiSquad.MAX_SIZE := by
  cases op with
  | prepareToAddBots =>
    cases h
    simp [AiSquad.PrepareToAddBots, StaticVector.clear, StaticVector.size]
  | addBot bot =>
    simp only [SquadOp.apply, AiSquad.AddBot, Option.map_eq_some'] at h
    obtain ⟨bs, hbs, rfl⟩ := h
    exact StaticVector.push_back_size _ _ _ hbs
  | tryAttachBot compatible bot =>
    simp only [SquadOp.apply, Option.some.injEq] at h
    subst h
    unfold AiSquad.TryAttachBot
    split
    · split
      · rename_i s1 hadd
        simp only [AiSquad.AddBot, Option.map_eq_some'] at hadd
        obtain ⟨bs, hbs, rfl⟩ := hadd
        exact StaticVector.push_back_size _ _ _ hbs
      · exact hs
    · exact hs
  | invalidate =>
    cases h
    exact hs
  | releaseBots =>
    cases h
    simp [AiSquad.ReleaseBotsTo, StaticVector.clear, StaticVector.size]
  | onBotRemoved bot =>
    cases h
    exact Nat.le_trans (StaticVector.remove_size s.bots bot) hs
  | setFrameAffinity modulo offset =>
    cases h
    exact hs

theorem runSquadOps_size : ∀ (ops : List SquadOp) (s t : AiSquad),
    runSquadOps ops s = some t → s.bots.size ≤ AiSquad.MAX_SIZE →
    t.bots.size ≤ AiSquad.MAX_SIZE := by
  intro ops
  induction ops with
  | nil =>
    intro s t h hs
    cases h
    exact hs
  | cons op ops ih =>
    intro s t h hs
    simp only [runSquadOps, Option.bind_eq_some] at h
    obtain ⟨s1, h1, h2⟩ := h
    exact ih s1 t h2 (SquadOp.apply_size op s s1 h1 hs)

/-- Claim C3. AiSquad::MAX_SIZE is 3, and in every squad state reached from a
constructed squad by squad operations the member list returned by Bots() has at
most 3 elements; the per-member arrays lastDroppedByBotTimestamps,
lastDroppedForBotTimestamps, botRoleWeights and botEnemies have exactly
MAX_SIZE = 3 cells. -/
theorem AiSquad_never_holds_more_than_MAX_SIZE_bots (ops : List SquadOp) (s : AiSquad)
    (h : runSquadOps ops AiSquad.construct = some s) :
    AiSquad.MAX_SIZE = 3 ∧ s.Bots.size ≤ 3 ∧
      s.lastDroppedByBotTimestamps.cells.length = 3 ∧
      s.lastDroppedForBotTimestamps.cells.length = 3 ∧
      s.squadEnemiesTracker.botRoleWeights.cells.length = 3 ∧
      s.squadEnemiesTracker.botEnemies.cells.length = 3 :=
  ⟨rfl, runSquadOps_size ops AiSquad.construct s h (by decide),
    s.lastDroppedByBotTimestamps.size_eq, s.lastDroppedForBotTimestamps.size_eq,
    s.squadEnemiesTracker.botRoleWeights.size_eq, s.squadEnemiesTracker.botEnemies.size_eq⟩

/-- A squad filled with three bots; a fourth bot is refused by TryAttachBot. -/
theorem AiSquad_never_holds_more_than_MAX_SIZE_bots_witness :
    runSquadOps [SquadOp.prepareToAddBots, SquadOp.addBot 1, SquadOp.addBot 2,
        SquadOp.tryAttachBot true 3, SquadOp.tryAttachBot true 4] AiSquad.construct =
        some AiSquad.fullSquad ∧
      AiSquad.fullSquad.Bots.size ≤ 3 :=
  ⟨rfl,
    (AiSquad_never_holds_more_than_MAX_SIZE_bots
      [SquadOp.prepareToAddBots, SquadOp.addBot 1, SquadOp.addBot 2,
        SquadOp.tryAttachBot true 3, SquadOp.tryAttachBot true 4] AiSquad.fullSquad rfl).2.1⟩

/-! ## CombatDodgeSemiRandomlyToTargetAction -/

/-- Claim C4. ShouldTrySpecialMovement returns true if and only if
maxAttempts > 2 and attemptNum is even; for every attemptNum it returns false
when maxAttempts <= 2. -/
theorem ShouldTrySpecialMovement_iff (a : CombatDodgeSemiRandomlyToTargetAction) :
    (a.ShouldTrySpecialMovement = true ↔ (a.maxAttempts > 2 ∧ Even a.attemptNum)) ∧
      (a.maxAttempts ≤ 2 → a.ShouldTrySpecialMovement = false) := by
  have hand : a.attemptNum &&& 1 = a.attemptNum % 2 := Nat.and_one_is_mod a.attemptNum
  constructor
  · simp only [CombatDodgeSemiRandomlyToTargetAction.ShouldTrySpecialMovement, hand,
      Bool.and_eq_true, decide_eq_true_eq, Bool.not_eq_true', decide_eq_false_iff_not,
      Decidable.not_not, Nat.even_iff]
  · intro h
    have h2 : ¬ a.maxAttempts > 2 := by omega
    simp [CombatDodgeSemiRandomlyToTargetAction.ShouldTrySpecialMovement, h2]

/-- An easy bot (maxAttempts = 2) on an even attempt. -/
theorem ShouldTrySpecialMovement_iff_witness :
    CombatDodgeSemiRandomlyToTargetAction.ShouldTrySpecialMovement
      { bestTravelTimeSoFar := 2147483647, bestFloorClusterSoFar := 0, maxAttempts := 2,
        attemptNum := 0, isCombatDashingAllowed := false,
        isCompatCrouchingAllowed := false } = false :=
  (ShouldTrySpecialMovement_iff
    { bestTravelTimeSoFar := 2147483647, bestFloorClusterSoFar := 0, maxAttempts := 2,
      attemptNum := 0, isCombatDashingAllowed := false,
      isCompatCrouchingAllowed := false }).2 (by decide)

/-! ## Bot -/

/-- Claim C5. Bot::SetFrameAffinity(modulo, offset) leaves the bot itself, its
planner and its awareness module with the pair (modulo, offset), and
AiSquad::SetFrameAffinity(modulo, offset) leaves the squad and its squad enemies
tracker with the pair (modulo, offset); nothing else of the bot or squad
changes. -/
theorem SetFrameAffinity_same_pair_for_subsystems (modulo offset : Nat) (b : Bot)
    (s : AiSquad) :
    (b.SetFrameAffinity modulo offset).frameAffinity =
        { frameAffinityModulo := modulo, frameAffinityOffset := offset } ∧
      (b.SetFrameAffinity modulo offset).botPlanner.frameAffinity =
        (b.SetFrameAffinity modulo offset).frameAffinity ∧
      (b.SetFrameAffinity modulo offset).awarenessModule.frameAffinity =
        (b.SetFrameAffinity modulo offset).frameAffinity ∧
      (b.SetFrameAffinity modulo offset).self = b.self ∧
      (b.SetFrameAffinity modulo offset).selectedTactics = b.selectedTactics ∧
      (b.SetFrameAffinity modulo offset).awarenessModule.received = b.awarenessModule.received ∧
      (s.SetFrameAffinity modulo offset).frameAffinity =
        { frameAffinityModulo := modulo, frameAffinityOffset := offset } ∧
      (s.SetFrameAffinity modulo offset).squadEnemiesTracker.frameAffinity =
        (s.SetFrameAffinity modulo offset).frameAffinity ∧
      (s.SetFrameAffinity modulo offset).bots = s.bots ∧
      (s.SetFrameAffinity modulo offset).isValid = s.isValid :=
  ⟨rfl, rfl, rfl, rfl, rfl, rfl, rfl, rfl, rfl, rfl⟩

/-- Claim C6. After the constructor (on any uninitialised storage) and after
Clear on any state all eight tactical flags are false, so for a bot holding such
tactics each of WillAdvance ... ShouldRushHeadless returns false; and for every
bot each accessor returns the flag of the same name. -/
theorem SelectedMiscTactics_Clear_all_false (t : SelectedMiscTactics) (b : Bot) :
    t.Clear =
        { willAdvance := false, willRetreat := false, shouldBeSilent := false,
          shouldMoveCarefully := false, shouldAttack := false,
          shouldKeepXhairOnEnemy := false, willAttackMelee := false,
          shouldRushHeadless := false } ∧
      SelectedMiscTactics.construct t = t.Clear ∧
      Bot.WillAdvance { b with selectedTactics := t.Clear } = false ∧
      Bot.WillRetreat { b with selectedTactics := t.Clear } = false ∧
      Bot.ShouldBeSilent { b with selectedTactics := t.Clear } = false ∧
      Bot.ShouldMoveCarefully { b with selectedTactics := t.Clear } = false ∧
      Bot.ShouldAttack { b with selectedTactics := t.Clear } = false ∧
      Bot.ShouldKeepXhairOnEnemy { b with selectedTactics := t.Clear } = false ∧
      Bot.WillAttackMelee { b with selectedTactics := t.Clear } = false ∧
      Bot.ShouldRushHeadless { b with selectedTactics := t.Clear } = false ∧
      b.WillAdvance = b.GetMiscTactics.willAdvance ∧
      b.WillRetreat = b.GetMiscTactics.willRetreat ∧
      b.ShouldBeSilent = b.GetMiscTactics.shouldBeSilent ∧
      b.ShouldMoveCarefully = b.GetMiscTactics.shouldMoveCarefully ∧
      b.ShouldAttack = b.GetMiscTactics.shouldAttack ∧
      b.ShouldKeepXhairOnEnemy = b.GetMiscTactics.shouldKeepXhairOnEnemy ∧
      b.WillAttackMelee = b.GetMiscTactics.willAttackMelee ∧
      b.ShouldRushHeadless = b.GetMiscTactics.shouldRushHeadless :=
  ⟨rfl, rfl, rfl, rfl, rfl, rfl, rfl, rfl, rfl, rfl, rfl, rfl, rfl, rfl, rfl, rfl, rfl, rfl⟩

/-! ## Client ratings -/

theorem cl_ratingAlloc_ok (cfg : MMConfig) (gametype : List Char) (rating deviation : Rat)
    (uuid : mm_uuid_t) :
    cl_ratingAlloc cfg true gametype rating deviation uuid =
      some
        { gametype := gametype.take (cfg.gametypeSize - 2)
          rating := rating
          deviation := deviation
          uuid := uuid } := by
  unfold cl_ratingAlloc Q_strncpyz
  by_cases h : cfg.gametypeSize - 1 = 0
  · have h2 : cfg.gametypeSize - 2 = 0 := by omega
    simp [h, h2]
  · have h2 : cfg.gametypeSize - 1 - 1 = cfg.gametypeSize - 2 := by omega
    simp [h, h2]

/-- Claim C7 (the code departs from it). On a list without an entry for the
gametype, CL_AddRating with a successful allocation returns the new head entry,
and that entry carries MM_RATING_DEFAULT and MM_DEVIATION_DEFAULT whatever
rating and deviation were passed; with the sample constants the call
CL_AddRating("duel", 1500, 250) at program start returns an entry of rating 0
and deviation 1, not 1500 and 250. -/
theorem CL_AddRating_new_entry_ignores_rating (cfg : MMConfig) (gametype : List Char)
    (rating deviation : Rat) :
    CL_AddRating cfg true gametype rating deviation MMState.start =
        (some 0,
          { MMState.start with
            ratings :=
              [{ gametype := gametype.take (cfg.gametypeSize - 2)
                 rating := cfg.MM_RATING_DEFAULT
                 deviation := cfg.MM_DEVIATION_DEFAULT
                 uuid := Uuid_ZeroUuid }] }) ∧
      (CL_AddRating MMConfig.sample true gametypeDuel 1500 250 MMState.start).1 = some 0 ∧
      Rating_Find
          (CL_AddRating MMConfig.sample true gametypeDuel 1500 250 MMState.start).2.ratings
          gametypeDuel = some 0 ∧
      ((CL_AddRating MMConfig.sample true gametypeDuel 1500 250 MMState.start).2.ratings.map
          fun cr => (cr.rating, cr.deviation)) = [(0, 1)] ∧
      ((0 : Rat), (1 : Rat)) ≠ (1500, 250) := by
  refine ⟨?_, by decide, by decide, by decide, by decide⟩
  simp [CL_AddRating, Rating_Find, MMState.start, cl_ratingAlloc_ok]

theorem Rating_Find_modify (g : List Char) (f : clientRating_t → clientRating_t)
    (hf : ∀ cr, (f cr).gametype = cr.gametype) :
    ∀ (l : List clientRating_t) (i : Nat), Rating_Find l g = some i →
      Rating_Find (List.modify f i l) g = some i ∧
        ∃ cr, l[i]? = some cr ∧ (List.modify f i l)[i]? = some (f cr) := by
  intro l
  induction l with
  | nil => intro i h; cases h
  | cons c rest ih =>
    intro i h
    unfold Rating_Find at h
    by_cases hg : g = c.gametype
    · rw [if_pos hg] at h
      cases h
      refine ⟨?_, c, by simp, ?_⟩
      · rw [List.modify_zero_cons]
        unfold Rating_Find
        rw [if_pos (by rw [hf]; exact hg)]
      · rw [List.modify_zero_cons]
        simp
    · rw [if_neg hg] at h
      cases hr : Rating_Find rest g with
      | none => rw [hr] at h; cases h
      | some j =>
        rw [hr] at h
        cases h
        obtain ⟨h1, cr, h2, h3⟩ := ih j hr
        refine ⟨?_, cr, ?_, ?_⟩
        · rw [List.modify_succ_cons]
          unfold Rating_Find
          rw [if_neg hg, h1]
          rfl
        · simpa using h2
        · rw [List.modify_succ_cons]
          simpa using h3

/-- The update path of CL_AddRating: an existing entry for the gametype is
returned with the given rating and deviation. -/
theorem CL_AddRating_updates_existing (cfg : MMConfig) (allocOk : Bool) (g : List Char)
    (r d : Rat) (st : MMState) (i : Nat) (h : Rating_Find st.ratings g = some i) :
    (CL_AddRating cfg allocOk g r d st).1 = some i ∧
      Rating_Find (CL_AddRating cfg allocOk g r d st).2.ratings g = some i ∧
      ((CL_AddRating cfg allocOk g r d st).2.ratings[i]?).map
        (fun cr => (cr.rating, cr.deviation)) = some (r, d) := by
  have hm := Rating_Find_modify g (fun cr => { cr with rating := r, deviation := d })
    (fun _ => rfl) st.ratings i h
  obtain ⟨h1, cr, _, h3⟩ := hm
  unfold CL_AddRating
  rw [h]
  refine ⟨rfl, h1, ?_⟩
  show ((List.modify (fun cr => { cr with rating := r, deviation := d }) i st.ratings)[i]?).map
    (fun cr => (cr.rating, cr.deviation)) = some (r, d)
  rw [h3]
  rfl

/-- Claim C8, the counterexample. With the sample constants and an empty ratings
list: when the allocation fails CL_AddDefaultRating("duel") prepends nothing
although there was no entry for "duel"; and for a gametype name of 40
characters (the buffer has 32 bytes) two calls leave two entries while one
call leaves one. -/
theorem CL_AddDefaultRating_counterexample :
    (CL_AddDefaultRating MMConfig.sample false gametypeDuel MMState.start).2.ratings = [] ∧
      Rating_Find MMState.start.ratings gametypeDuel = none ∧
      (CL_AddDefaultRating MMConfig.sample true gametypeLong MMState.start).2.ratings.length = 1 ∧
      (CL_AddDefaultRating MMConfig.sample true gametypeLong
        (CL_AddDefaultRating MMConfig.sample true gametypeLong
          MMState.start).2).2.ratings.length = 2 := by
  refine ⟨by decide, by decide, by decide, by decide⟩

/-- Claim C8 as amended. CL_AddDefaultRating never updates an existing rating:
if the list has an entry for g it returns that entry and leaves the whole state
unchanged. Otherwise, when the allocation succeeds it prepends exactly one new
entry with MM_RATING_DEFAULT, MM_DEVIATION_DEFAULT and the session uuid, its
gametype being g cut to sizeof(gametype) - 2 characters, and returns it; when
the allocation fails it returns NULL and changes nothing. When g has at most
sizeof(gametype) - 2 characters and the first call returns an entry, a second
call with the same g returns an entry and leaves the state of the first call. -/
theorem CL_AddDefaultRating_inserts_once (cfg : MMConfig) (allocOk allocOk2 : Bool)
    (gametype : List Char) (st : MMState) :
    (∀ i, Rating_Find st.ratings gametype = some i →
        CL_AddDefaultRating cfg allocOk gametype st = (some i, st)) ∧
      (Rating_Find st.ratings gametype = none →
        CL_AddDefaultRating cfg true gametype st =
          (some 0,
            { st with
              ratings :=
                { gametype := gametype.take (cfg.gametypeSize - 2)
                  rating := cfg.MM_RATING_DEFAULT
                  deviation := cfg.MM_DEVIATION_DEFAULT
                  uuid := st.mm_session } :: st.ratings })) ∧
      (Rating_Find st.ratings gametype = none →
        CL_AddDefaultRating cfg false gametype st = (none, st)) ∧
      (gametype.length + 2 ≤ cfg.gametypeSize →
        (CL_AddDefaultRating cfg allocOk gametype st).1 ≠ none →
        (CL_AddDefaultRating cfg allocOk2 gametype
            (CL_AddDefaultRating cfg allocOk gametype st).2).1 ≠ none ∧
          (CL_AddDefaultRating cfg allocOk2 gametype
            (CL_AddDefaultRating cfg allocOk gametype st).2).2 =
            (CL_AddDefaultRating cfg allocOk gametype st).2) := by
  have hfound : ∀ (a : Bool) (s : MMState) (i : Nat), Rating_Find s.ratings gametype = some i →
      CL_AddDefaultRating cfg a gametype s = (some i, s) := by
    intro a s i h
    simp [CL_AddDefaultRating, h]
  have hnew : Rating_Find st.ratings gametype = none →
      CL_AddDefaultRating cfg true gametype st =
        (some 0,
          { st with
            ratings :=
              { gametype := gametype.take (cfg.gametypeSize - 2)
                rating := cfg.MM_RATING_DEFAULT
                deviation := cfg.MM_DEVIATION_DEFAULT
                uuid := st.mm_session } :: st.ratings }) := by
    intro h
    simp [CL_AddDefaultRating, h, cl_ratingAlloc_ok]
  have hfail : Rating_Find st.ratings gametype = none →
      CL_AddDefaultRating cfg false gametype st = (none, st) := by
    intro h
    simp [CL_AddDefaultRating, h, cl_ratingAlloc]
  refine ⟨hfound allocOk st, hnew, hfail, ?_⟩
  intro hfit hret
  cases hfind : Rating_Find st.ratings gametype with
  | some i =>
    rw [hfound allocOk st i hfind]
    simp only
    rw [hfound allocOk2 st i hfind]
    simp
  | none =>
    cases allocOk with
    | false =>
      rw [hfail hfind] at hret
      exact absurd rfl hret
    | true =>
      rw [hnew hfind]
      simp only
      have htake : gametype.take (cfg.gametypeSize - 2) = gametype :=
        List.take_of_length_le (by omega)
      have h2 := hfound allocOk2
        { st with
          ratings :=
            { gametype := gametype.take (cfg.gametypeSize - 2)
              rating := cfg.MM_RATING_DEFAULT
              deviation := cfg.MM_DEVIATION_DEFAULT
              uuid := st.mm_session } :: st.ratings } 0
        (by simp [Rating_Find, htake])
      rw [h2]
      simp

/-- Two calls for "duel" at program start. -/
theorem CL_AddDefaultRating_inserts_once_witness :
    (CL_AddDefaultRating MMConfig.sample true gametypeDuel
        (CL_AddDefaultRating MMConfig.sample true gametypeDuel MMState.start).2).2 =
      (CL_AddDefaultRating MMConfig.sample true gametypeDuel MMState.start).2 :=
  ((CL_AddDefaultRating_inserts_once MMConfig.sample true true gametypeDuel MMState.start).2.2.2
    (by decide) (by decide)).2

/-! ## The login state machine -/

theorem CL_MM_ErrorMessage_enabled (p : Bool) (text : List Char) (st : MMState) :
    (CL_MM_ErrorMessage p text st).cl_mm_enabled = st.cl_mm_enabled := by
  unfold CL_MM_ErrorMessage
  dsimp only
  split <;> rfl

theorem CL_MM_ErrorMessage_loginState (p : Bool) (text : List Char) (st : MMState) :
    (CL_MM_ErrorMessage p text st).cl_mm_loginState = st.cl_mm_loginState := by
  unfold CL_MM_ErrorMessage
  dsimp only
  split <;> rfl

theorem CL_MM_ErrorMessage_idle (p : Bool) (text : List Char) (st : MMState)
    (h : st.loggedInIdle) : (CL_MM_ErrorMessage p text st).loggedInIdle := by
  unfold MMState.loggedInIdle at *
  rw [CL_MM_ErrorMessage_enabled, CL_MM_ErrorMessage_loginState]
  exact h

theorem CL_AddRating_enabled (cfg : MMConfig) (a : Bool) (g : List Char) (r d : Rat)
    (st : MMState) :
    (CL_AddRating cfg a g r d st).2.cl_mm_enabled = st.cl_mm_enabled ∧
      (CL_AddRating cfg a g r d st).2.cl_mm_loginState = st.cl_mm_loginState ∧
      (CL_AddRating cfg a g r d st).2.mm_session = st.mm_session := by
  unfold CL_AddRating
  split
  · exact ⟨rfl, rfl, rfl⟩
  · split <;> exact ⟨rfl, rfl, rfl⟩

theorem CL_AddDefaultRating_enabled (cfg : MMConfig) (a : Bool) (g : List Char)
    (st : MMState) :
    (CL_AddDefaultRating cfg a g st).2.cl_mm_enabled = st.cl_mm_enabled ∧
      (CL_AddDefaultRating cfg a g st).2.cl_mm_loginState = st.cl_mm_loginState ∧
      (CL_AddDefaultRating cfg a g st).2.mm_session = st.mm_session := by
  unfold CL_AddDefaultRating
  split
  · exact ⟨rfl, rfl, rfl⟩
  · split <;> exact ⟨rfl, rfl, rfl⟩

theorem cl_mm_login_addRatings_enabled (cfg : MMConfig) :
    ∀ (els : List RatingElement) (st : MMState),
      (cl_mm_login_addRatings cfg els st).cl_mm_enabled = st.cl_mm_enabled ∧
        (cl_mm_login_addRatings cfg els st).cl_mm_loginState = st.cl_mm_loginState ∧
        (cl_mm_login_addRatings cfg els st).mm_session = st.mm_session := by
  intro els
  induction els with
  | nil => intro st; exact ⟨rfl, rfl, rfl⟩
  | cons e rest ih =>
    intro st
    have h1 := ih (CL_AddRating cfg e.allocOk e.gametype e.rating e.deviation st).2
    have h2 := CL_AddRating_enabled cfg e.allocOk e.gametype e.rating e.deviation st
    rw [cl_mm_login_addRatings]
    exact ⟨h1.1.trans h2.1, h1.2.1.trans h2.2.1, h1.2.2.trans h2.2.2⟩

theorem CL_MM_Heartbeat_enabled (cfg : MMConfig) (c : Bool) (st : MMState) :
    (CL_MM_Heartbeat cfg c st).cl_mm_enabled = st.cl_mm_enabled ∧
      (CL_MM_Heartbeat cfg c st).cl_mm_loginState = st.cl_mm_loginState := by
  unfold CL_MM_Heartbeat
  split
  · exact ⟨rfl, rfl⟩
  · split <;> exact ⟨rfl, rfl⟩

theorem CL_MM_Login2_idle (c : Bool) (now : Int) (st : MMState) (h : st.loggedInIdle) :
    (CL_MM_Login2 c now st).2.loggedInIdle := by
  unfold CL_MM_Login2
  split
  · exact h
  · rename_i hc
    split
    · exact h
    · intro hen
      have : st.cl_mm_enabled = true := hen
      exact absurd (Or.inr this) hc

theorem CL_MM_Frame_idle (cfg : MMConfig) (time : Int) (c : Bool) (st : MMState)
    (h : st.loggedInIdle) : (CL_MM_Frame cfg time c st).loggedInIdle := by
  have hstep : ∀ s : MMState, s.loggedInIdle →
      (if s.cl_mm_enabled then
        if s.cl_mm_logout_semaphore then
          { s with cl_mm_logout_semaphore := false }
        else if (((s.cl_mm_last_heartbeat + cfg.MM_HEARTBEAT_INTERVAL) % 2 ^ 32 : Nat) : Int)
            < time then
          { CL_MM_Heartbeat cfg c s with cl_mm_last_heartbeat := (time % 2 ^ 32).toNat }
        else s
      else s).loggedInIdle := by
    intro s hs
    split
    · split
      · exact hs
      · split
        · intro hen
          have h1 := CL_MM_Heartbeat_enabled cfg c s
          have h2 : s.cl_mm_enabled = true := h1.1 ▸ hen
          exact h1.2.trans (hs h2)
        · exact hs
    · exact hs
  unfold CL_MM_Frame
  apply hstep
  split
  · split
    · exact CL_MM_Login2_idle c time st h
    · apply CL_MM_ErrorMessage_idle
      intro _
      rfl
  · exact h

theorem cl_mm_logout_done_idle (st : MMState) : (cl_mm_logout_done st).loggedInIdle := by
  intro hen
  exact absurd hen (by simp [cl_mm_logout_done])

theorem cl_mm_login_failure_idle (st : MMState) : (cl_mm_login_failure st).loggedInIdle := by
  intro _
  rfl

theorem cl_mm_login_branches_idle (cfg : MMConfig) (root : LoginResponseRoot) (now : Int)
    (st st1 : MMState) (hoff : st.cl_mm_enabled = false)
    (h : cl_mm_login_branches cfg root now st = some st1) : st1.loggedInIdle := by
  unfold cl_mm_login_branches at h
  split at h
  · split at h
    · split at h
      · cases h
      · cases h
        intro hen
        have : st.cl_mm_enabled = true := hen
        rw [hoff] at this
        cases this
    · cases h
  · split at h
    · split at h
      · cases h
      · split at h
        · cases h
        · cases h
          intro _
          have hkeep : ∀ s : MMState,
              (match root.player_info with
                | some info =>
                  { s with
                    cl_mm_profile_url := cl_mm_StringCopy info.profile_web_url
                    cl_mm_profile_url_rml := cl_mm_StringCopy info.profile_rml_url }
                | none => s).cl_mm_loginState = s.cl_mm_loginState := by
            intro s
            split <;> rfl
          have hkeep2 : ∀ s : MMState,
              (match root.ratings with
                | some elements => cl_mm_login_addRatings cfg elements s
                | none => s).cl_mm_loginState = s.cl_mm_loginState := by
            intro s
            split
            · exact (cl_mm_login_addRatings_enabled cfg _ s).2.1
            · rfl
          rw [hkeep, hkeep2]
    · cases h
      intro hen
      rw [hoff] at hen
      cases hen

theorem cl_mm_login_final_idle (st : MMState) (h : st.loggedInIdle) :
    (cl_mm_login_final st).loggedInIdle := by
  unfold cl_mm_login_final
  split
  next hnone =>
    intro _
    exact (CL_MM_ErrorMessage_loginState false [] st).trans hnone
  next => exact h

theorem cl_mm_login_done_idle (cfg : MMConfig) (res : QueryResult) (now : Int) (st : MMState)
    (h : st.loggedInIdle) : (cl_mm_login_done cfg res now st).loggedInIdle := by
  unfold cl_mm_login_done
  split
  · exact h
  · dsimp only
    split
    · intro _
      rfl
    · split
      · exact cl_mm_login_failure_idle _
      · split
        · exact cl_mm_login_failure_idle _
        · split
          · exact cl_mm_login_failure_idle _
          · split
            · exact cl_mm_login_failure_idle _
            · rename_i st1 hbr
              exact cl_mm_login_final_idle st1
                (cl_mm_login_branches_idle cfg _ now _ st1 rfl hbr)

theorem CL_MM_LoginReal_idle (cfg : MMConfig) (user password : Option (List Char))
    (env : LoginEnv) (st : MMState) (h : st.loggedInIdle) :
    (CL_MM_LoginReal cfg user password env st).2.loggedInIdle := by
  unfold CL_MM_LoginReal
  split
  · exact h
  · rename_i hc
    split
    · exact CL_MM_ErrorMessage_idle true _ st h
    · split
      · exact h
      · intro hen
        have : st.cl_mm_enabled = true := hen
        exact absurd (Or.inr this) hc

theorem CL_MM_LoginSteamCb_enabled (data : List Nat) (st : MMState) :
    (CL_MM_LoginSteamCb data st).cl_mm_enabled = st.cl_mm_enabled ∧
      (CL_MM_LoginSteamCb data st).cl_mm_loginState = st.cl_mm_loginState := by
  unfold CL_MM_LoginSteamCb
  split
  · exact ⟨rfl, rfl⟩
  · dsimp only
    split <;> exact ⟨rfl, rfl⟩

theorem CL_MM_LoginSteam_enabled (env : LoginEnv) (st : MMState) :
    (CL_MM_LoginSteam env st).2.cl_mm_enabled = st.cl_mm_enabled ∧
      (CL_MM_LoginSteam env st).2.cl_mm_loginState = st.cl_mm_loginState := by
  unfold CL_MM_LoginSteam
  split
  · exact ⟨rfl, rfl⟩
  · dsimp only
    split
    · exact ⟨rfl, rfl⟩
    · split
      · exact CL_MM_LoginSteamCb_enabled _ _
      · exact ⟨rfl, rfl⟩

theorem CL_MM_LoginSteam_idle (env : LoginEnv) (st : MMState) (h : st.loggedInIdle) :
    (CL_MM_LoginSteam env st).2.loggedInIdle := by
  have h1 := CL_MM_LoginSteam_enabled env st
  intro hen
  rw [h1.1] at hen
  rw [h1.2]
  exact h hen

theorem CL_MM_Login_password_idle (cfg : MMConfig) (user password : Option (List Char))
    (env : LoginEnv) (st : MMState) (h : st.loggedInIdle) :
    (CL_MM_Login_password cfg user password env st).2.loggedInIdle := by
  have hst : (if user.getD [] ≠ [] ∧ env.autologin = true then
      { st with userCvar := user.getD [] } else st).loggedInIdle := by
    split
    · exact h
    · exact h
  unfold CL_MM_Login_password
  dsimp only
  generalize (if user.getD [] ≠ [] ∧ env.autologin = true then
      { st with userCvar := user.getD [] } else st) = s at hst ⊢
  by_cases hu : (if user.getD [] = [] then s.userCvar else user.getD []) = []
  · rw [if_pos hu]
    exact hst
  · rw [if_neg hu]
    cases (if password.getD [] = [] then env.storedPassword else password) with
    | none => exact CL_MM_ErrorMessage_idle true _ s hst
    | some pw => exact CL_MM_LoginReal_idle cfg _ _ env s hst

theorem CL_MM_Login_idle (cfg : MMConfig) (user password : Option (List Char))
    (env : LoginEnv) (st : MMState) (h : st.loggedInIdle) :
    (CL_MM_Login cfg user password env st).2.loggedInIdle := by
  unfold CL_MM_Login
  split
  · dsimp only
    split
    · exact CL_MM_LoginReal_idle cfg _ _ env _ (CL_MM_LoginSteam_idle env st h)
    · exact CL_MM_Login_password_idle cfg _ _ env _ (CL_MM_LoginSteam_idle env st h)
  · exact CL_MM_Login_password_idle cfg _ _ env _ h

theorem CL_MM_Connect_idle (c : Bool) (st : MMState) (h : st.loggedInIdle) :
    (CL_MM_Connect c st).2.loggedInIdle := by
  unfold CL_MM_Connect
  dsimp only
  split
  · exact h
  · split
    · exact h
    · exact h

theorem cl_mm_connect_done_idle (success : Bool) (ticket : Option (Option mm_uuid_t))
    (st : MMState) (h : st.loggedInIdle) : (cl_mm_connect_done success ticket st).loggedInIdle := by
  unfold cl_mm_connect_done
  split
  · exact CL_MM_ErrorMessage_idle true _ st h
  · split
    · exact h
    · exact CL_MM_ErrorMessage_idle true _ st h
    · exact h

theorem Callback.run_idle (cfg : MMConfig) (cb : Callback) (st : MMState)
    (h : st.loggedInIdle) : (cb.run cfg st).loggedInIdle := by
  cases cb with
  | login_done res now => exact cl_mm_login_done_idle cfg res now st h
  | logout_done => exact cl_mm_logout_done_idle st
  | heartbeat_done => exact h
  | connect_done success ticket => exact cl_mm_connect_done_idle success ticket st h

theorem sq_api_Poll_idle (cfg : MMConfig) :
    ∀ (cbs : List Callback) (st : MMState), st.loggedInIdle →
      (sq_api_Poll cfg cbs st).loggedInIdle := by
  intro cbs
  induction cbs with
  | nil => intro st h; exact h
  | cons cb rest ih =>
    intro st h
    exact ih _ (Callback.run_idle cfg cb st h)

theorem CL_MM_Logout_wait_idle (cfg : MMConfig) :
    ∀ (polls : List (List Callback)) (st : MMState), st.loggedInIdle →
      (CL_MM_Logout_wait cfg polls st).loggedInIdle := by
  intro polls
  induction polls with
  | nil => intro st h; exact h
  | cons round rest ih =>
    intro st h
    rw [CL_MM_Logout_wait]
    split
    · exact h
    · exact ih _ (sq_api_Poll_idle cfg round st h)

theorem CL_MM_Logout_idle (cfg : MMConfig) (force : Bool) (env : LogoutEnv) (st : MMState)
    (h : st.loggedInIdle) : (CL_MM_Logout cfg force env st).2.loggedInIdle := by
  unfold CL_MM_Logout
  split
  · exact CL_MM_ErrorMessage_idle true _ st h
  · split
    · exact CL_MM_ErrorMessage_idle true _ st h
    · split
      · exact h
      · dsimp only
        have hw := CL_MM_Logout_wait_idle cfg env.polls
          { st with
            cl_mm_logout_semaphore := false
            sent := st.sent ++ [SentQuery.logout st.mm_session] } h
        split
        · split
          · exact CL_MM_ErrorMessage_idle true _ _ hw
          · exact hw
        · exact h

theorem CL_MM_Init_idle (cfg : MMConfig) (env : LoginEnv) (st : MMState)
    (h : st.loggedInIdle) : (CL_MM_Init cfg env st).loggedInIdle := by
  unfold CL_MM_Init
  split
  · exact h
  · dsimp only
    have hlogin : ∀ s : MMState, s.loggedInIdle →
        (if env.autologin = true ∨ env.steamId ≠ 0 then (CL_MM_Login cfg none none env s).2
          else s).loggedInIdle := by
      intro s hs
      split
      · exact CL_MM_Login_idle cfg none none env s hs
      · exact hs
    apply hlogin
    split
    · intro _
      rfl
    · intro _
      rfl

theorem CL_MM_Shutdown_idle (cfg : MMConfig) (logout : Bool) (env : LogoutEnv) (st : MMState)
    (h : st.loggedInIdle) : (CL_MM_Shutdown cfg logout env st).loggedInIdle := by
  unfold CL_MM_Shutdown
  split
  · exact h
  · intro _
    rfl

theorem MMEvent.apply_idle (cfg : MMConfig) (e : MMEvent) (st : MMState)
    (h : st.loggedInIdle) : (e.apply cfg st).loggedInIdle := by
  cases e with
  | Init env => exact CL_MM_Init_idle cfg env st h
  | Shutdown logout env => exact CL_MM_Shutdown_idle cfg logout env st h
  | Login user password env => exact CL_MM_Login_idle cfg user password env st h
  | LoginReal user password env => exact CL_MM_LoginReal_idle cfg user password env st h
  | Login2 c now => exact CL_MM_Login2_idle c now st h
  | login_done res now => exact cl_mm_login_done_idle cfg res now st h
  | logout_done => exact cl_mm_logout_done_idle st
  | Logout force env => exact CL_MM_Logout_idle cfg force env st h
  | Frame time c => exact CL_MM_Frame_idle cfg time c st h
  | Heartbeat c =>
    have h1 := CL_MM_Heartbeat_enabled cfg c st
    intro hen
    exact h1.2.trans (h (h1.1 ▸ hen))
  | Connect c => exact CL_MM_Connect_idle c st h
  | connect_done success ticket => exact cl_mm_connect_done_idle success ticket st h
  | AddRating a g r d =>
    have h1 := CL_AddRating_enabled cfg a g r d st
    intro hen
    exact h1.2.1.trans (h (h1.1 ▸ hen))
  | AddDefaultRating a g =>
    have h1 := CL_AddDefaultRating_enabled cfg a g st
    intro hen
    exact h1.2.1.trans (h (h1.1 ▸ hen))

theorem MMEvent.runAll_idle (cfg : MMConfig) :
    ∀ (events : List MMEvent) (st : MMState), st.loggedInIdle →
      (MMEvent.runAll cfg events st).loggedInIdle := by
  intro events
  induction events with
  | nil => intro st h; exact h
  | cons e rest ih =>
    intro st h
    exact ih _ (MMEvent.apply_idle cfg e st h)

/-- Claim C9. In every state reached from program start by any sequence of calls
of CL_MM_Init, CL_MM_Login, CL_MM_LoginReal, CL_MM_Login2, cl_mm_login_done,
cl_mm_logout_done, CL_MM_Logout, CL_MM_Frame, CL_MM_Shutdown (and the
heartbeat, connect and rating functions), cl_mm_enabled == true implies
cl_mm_loginState == LOGIN_STATE_NONE, hence CL_MM_CanConnect() returns true. -/
theorem CL_MM_CanConnect_when_logged_in (cfg : MMConfig) (events : List MMEvent)
    (hen : (MMEvent.runAll cfg events MMState.start).cl_mm_enabled = true) :
    (MMEvent.runAll cfg events MMState.start).cl_mm_loginState = LOGIN_STATE_NONE ∧
      CL_MM_CanConnect (MMEvent.runAll cfg events MMState.start) = true := by
  have h := MMEvent.runAll_idle cfg events MMState.start (by intro h; cases h) hen
  exact ⟨h, by simp [CL_MM_CanConnect, h]⟩

/-- The sample login ends logged in, and the client can connect. -/
theorem CL_MM_CanConnect_when_logged_in_witness :
    (MMEvent.runAll MMConfig.sample MMEvent.sampleLogin MMState.start).cl_mm_enabled = true ∧
      CL_MM_CanConnect (MMEvent.runAll MMConfig.sample MMEvent.sampleLogin MMState.start) = true :=
  ⟨by decide,
    (CL_MM_CanConnect_when_logged_in MMConfig.sample MMEvent.sampleLogin (by decide)).2⟩

/-- Claim C10. CL_MM_GetLoginState returns MM_LOGIN_STATE_IN_PROGRESS exactly
when cl_mm_loginState != LOGIN_STATE_NONE; otherwise MM_LOGIN_STATE_LOGGED_IN
exactly when cl_mm_enabled, else MM_LOGIN_STATE_LOGGED_OUT. Hence
CL_MM_CanConnect() is true exactly when CL_MM_GetLoginState() is not
MM_LOGIN_STATE_IN_PROGRESS. -/
theorem CL_MM_GetLoginState_cases (st : MMState) :
    (CL_MM_GetLoginState st = mm_login_state_t.MM_LOGIN_STATE_IN_PROGRESS ↔
        st.cl_mm_loginState ≠ LOGIN_STATE_NONE) ∧
      (CL_MM_GetLoginState st = mm_login_state_t.MM_LOGIN_STATE_LOGGED_IN ↔
        (st.cl_mm_loginState = LOGIN_STATE_NONE ∧ st.cl_mm_enabled = true)) ∧
      (CL_MM_GetLoginState st = mm_login_state_t.MM_LOGIN_STATE_LOGGED_OUT ↔
        (st.cl_mm_loginState = LOGIN_STATE_NONE ∧ st.cl_mm_enabled = false)) ∧
      (CL_MM_CanConnect st = true ↔
        CL_MM_GetLoginState st ≠ mm_login_state_t.MM_LOGIN_STATE_IN_PROGRESS) := by
  unfold CL_MM_GetLoginState CL_MM_CanConnect
  by_cases h1 : st.cl_mm_loginState = LOGIN_STATE_NONE
  · by_cases h2 : st.cl_mm_enabled = true
    · simp [h1, h2]
    · simp [h1, h2]
  · simp [h1]

/-! ## Error message getter and logout -/

theorem CL_MM_ErrorMessage_size (p : Bool) (text : List Char) (st : MMState) :
    (CL_MM_ErrorMessage p text st).cl_mm_errmsg_size =
        max st.cl_mm_errmsg_size (text.length + 1) ∧
      (CL_MM_ErrorMessage p text st).cl_mm_errmsg = some (text.take 2047) := by
  unfold CL_MM_ErrorMessage Q_vsnprintfz
  dsimp only
  split
  · rename_i h
    refine ⟨?_, rfl⟩
    show text.length + 1 = max st.cl_mm_errmsg_size (text.length + 1)
    have : st.cl_mm_errmsg_size ≤ text.length := h
    omega
  · rename_i h
    refine ⟨?_, rfl⟩
    show st.cl_mm_errmsg_size = max st.cl_mm_errmsg_size (text.length + 1)
    have : ¬ st.cl_mm_errmsg_size ≤ text.length := h
    omega

theorem CL_MM_ErrorMessage_only_message (p : Bool) (text : List Char) (st : MMState) :
    { CL_MM_ErrorMessage p text st with
      cl_mm_errmsg := st.cl_mm_errmsg
      cl_mm_errmsg_size := st.cl_mm_errmsg_size } = st := by
  unfold CL_MM_ErrorMessage
  dsimp only
  split <;> rfl

/-- Claim C11 (the code departs from it). After a failed login while connected
("MM Login: Can't login to MM while connected to server", 53 characters) and a
failed logout ("MM Logout: not logged in", 24 characters) the stored message is
the second one, CL_MM_GetLastErrorMessage copies it to the buffer, and returns
53, the length of the longest message stored so far (cl_mm_errmsg_size - 1),
not 24. The remaining cases are as claimed: a NULL buffer or a size of 0 give
0, no message or an empty message give 0 and an empty buffer; and
CL_MM_GetProfileURL returns the length of a non-empty URL. -/
theorem CL_MM_GetLastErrorMessage_returns_buffer_size :
    (MMEvent.runAll MMConfig.sample MMEvent.sampleTwoErrors MMState.start).cl_mm_errmsg =
        some "MM Logout: not logged in".toList ∧
      "MM Logout: not logged in".toList.length = 24 ∧
      CL_MM_GetLastErrorMessage (some []) 2048
          (MMEvent.runAll MMConfig.sample MMEvent.sampleTwoErrors MMState.start) =
        (53, some "MM Logout: not logged in".toList) ∧
      (∀ (st : MMState) (n : Nat), CL_MM_GetLastErrorMessage none n st = (0, none)) ∧
      (∀ (st : MMState) (content : List Char),
        CL_MM_GetLastErrorMessage (some content) 0 st = (0, some content)) ∧
      (∀ (st : MMState) (content : List Char) (n : Nat),
        CL_MM_GetLastErrorMessage (some content) (n + 1) { st with cl_mm_errmsg := none } =
          (0, some [])) ∧
      (∀ (st : MMState) (content : List Char) (n : Nat),
        CL_MM_GetLastErrorMessage (some content) (n + 1) { st with cl_mm_errmsg := some [] } =
          (0, some [])) ∧
      (∀ (st : MMState) (content : List Char) (n : Nat) (c : Char) (url : List Char),
        (CL_MM_GetProfileURL (some content) (n + 1) false
          { st with cl_mm_profile_url := some (c :: url) }).1 = (c :: url).length) := by
  refine ⟨by decide, by decide, by decide, fun _ _ => rfl, fun _ _ => rfl, ?_, ?_, ?_⟩
  · intro st content n
    simp [CL_MM_GetLastErrorMessage]
  · intro st content n
    simp [CL_MM_GetLastErrorMessage]
  · intro st content n c url
    simp [CL_MM_GetProfileURL]

/-- Claim C12. When the client is not logged in (cl_mm_enabled false or
cls.mm_session not a valid session id) or the client state is above
CA_DISCONNECTED, CL_MM_Logout returns false, sends no query, does not depend on
whether a query could be created or on what a poll would deliver, and leaves
the state as it was except for the stored error message and the size of its
buffer; in particular cl_mm_enabled, cl_mm_loginState, cls.mm_session and
cl_mm_logout_semaphore are unchanged. -/
theorem CL_MM_Logout_fails_without_side_effects (cfg : MMConfig) (force : Bool)
    (env : LogoutEnv) (st : MMState)
    (h : st.cl_mm_enabled = false ∨ cfg.Uuid_IsValidSessionId st.mm_session = false ∨
      env.clientState > cfg.CA_DISCONNECTED) :
    (CL_MM_Logout cfg force env st).1 = false ∧
      (CL_MM_Logout cfg force env st).2.sent = st.sent ∧
      (CL_MM_Logout cfg force env st).2.cl_mm_enabled = st.cl_mm_enabled ∧
      (CL_MM_Logout cfg force env st).2.cl_mm_loginState = st.cl_mm_loginState ∧
      (CL_MM_Logout cfg force env st).2.mm_session = st.mm_session ∧
      (CL_MM_Logout cfg force env st).2.cl_mm_logout_semaphore = st.cl_mm_logout_semaphore ∧
      { (CL_MM_Logout cfg force env st).2 with
        cl_mm_errmsg := st.cl_mm_errmsg
        cl_mm_errmsg_size := st.cl_mm_errmsg_size } = st ∧
      (∀ (createQueryOk : Bool) (polls : List (List Callback)),
        CL_MM_Logout cfg force
            { clientState := env.clientState, createQueryOk := createQueryOk, polls := polls } st =
          CL_MM_Logout cfg force env st) := by
  have hmsg : ∀ (e : LogoutEnv), e.clientState = env.clientState →
      ∃ text, CL_MM_Logout cfg force e st = (false, CL_MM_ErrorMessage true text st) ∧
        ∀ e2 : LogoutEnv, e2.clientState = env.clientState →
          CL_MM_Logout cfg force e2 st = (false, CL_MM_ErrorMessage true text st) := by
    intro e he
    by_cases h1 : (!st.cl_mm_enabled || !cfg.Uuid_IsValidSessionId st.mm_session) = true
    · refine ⟨"MM Logout: not logged in".toList, ?_, ?_⟩
      · unfold CL_MM_Logout
        rw [if_pos h1]
      · intro e2 _
        unfold CL_MM_Logout
        rw [if_pos h1]
    · have h2 : env.clientState > cfg.CA_DISCONNECTED := by
        rcases h with h | h | h
        · exact absurd (by simp [h]) h1
        · exact absurd (by simp [h]) h1
        · exact h
      refine ⟨"MM Logout: can't logout from MM while connected to server".toList, ?_, ?_⟩
      · unfold CL_MM_Logout
        rw [if_neg h1, if_pos (he ▸ h2)]
      · intro e2 he2
        unfold CL_MM_Logout
        rw [if_neg h1, if_pos (he2 ▸ h2)]
  obtain ⟨text, hrun, hall⟩ := hmsg env rfl
  rw [hrun]
  refine ⟨rfl, ?_, CL_MM_ErrorMessage_enabled true text st,
    CL_MM_ErrorMessage_loginState true text st, ?_, ?_,
    CL_MM_ErrorMessage_only_message true text st, ?_⟩
  · have hm := congrArg MMState.sent (CL_MM_ErrorMessage_only_message true text st)
    exact hm
  · have hm := congrArg MMState.mm_session (CL_MM_ErrorMessage_only_message true text st)
    exact hm
  · have hm := congrArg MMState.cl_mm_logout_semaphore
      (CL_MM_ErrorMessage_only_message true text st)
    exact hm
  · intro c ps
    exact hall _ rfl

/-- A forced logout at program start, where nobody is logged in. -/
theorem CL_MM_Logout_fails_without_side_effects_witness :
    (CL_MM_Logout MMConfig.sample true LogoutEnv.sample MMState.start).1 = false ∧
      (CL_MM_Logout MMConfig.sample true LogoutEnv.sample MMState.start).2.sent = [] :=
  ⟨(CL_MM_Logout_fails_without_side_effects MMConfig.sample true LogoutEnv.sample MMState.start
      (Or.inl rfl)).1,
    (CL_MM_Logout_fails_without_side_effects MMConfig.sample true LogoutEnv.sample MMState.start
      (Or.inl rfl)).2.1⟩

/-! ## Pain and damage events of a bot -/

/-- Claim C15. When enemy != self, Bot::OnPain and Bot::OnEnemyDamaged append
exactly one call, with the same arguments, to what the awareness module has
received and change nothing else of the bot; when enemy == self they leave the
bot, and with it the awareness module, exactly as it was. -/
theorem Bot_OnPain_OnEnemyDamaged_skip_self (b : Bot) (enemy : Nat) (kick : Rat)
    (damage : Int) :
    (enemy ≠ b.self →
        b.OnPain enemy kick damage =
            { b with awarenessModule :=
              { b.awarenessModule with
                received :=
                  b.awarenessModule.received ++ [AwarenessCall.OnPain enemy kick damage] } } ∧
          b.OnEnemyDamaged enemy damage =
            { b with awarenessModule :=
              { b.awarenessModule with
                received :=
                  b.awarenessModule.received ++ [AwarenessCall.OnEnemyDamaged enemy damage] } } ∧
          (b.OnPain enemy kick damage).awarenessModule.received.length =
            b.awarenessModule.received.length + 1 ∧
          (b.OnEnemyDamaged enemy damage).awarenessModule.received.length =
            b.awarenessModule.received.length + 1) ∧
      (enemy = b.self →
        b.OnPain enemy kick damage = b ∧ b.OnEnemyDamaged enemy damage = b) := by
  constructor
  · intro h
    unfold Bot.OnPain Bot.OnEnemyDamaged
    rw [if_pos h, if_pos h]
    refine ⟨rfl, rfl, ?_, ?_⟩ <;> simp
  · intro h
    unfold Bot.OnPain Bot.OnEnemyDamaged
    rw [if_neg (fun hne => hne h), if_neg (fun hne => hne h)]
    exact ⟨rfl, rfl⟩

/-- The sample bot hurt by entity 3 and by itself. -/
theorem Bot_OnPain_OnEnemyDamaged_skip_self_witness :
    (Bot.sample.OnPain 3 (1 / 2) 25).awarenessModule.received =
        [AwarenessCall.OnPain 3 (1 / 2) 25] ∧
      Bot.sample.OnPain 7 (1 / 2) 25 = Bot.sample ∧
      Bot.sample.OnEnemyDamaged 7 25 = Bot.sample :=
  ⟨congrArg (fun x : Bot => x.awarenessModule.received)
      ((Bot_OnPain_OnEnemyDamaged_skip_self Bot.sample 3 (1 / 2) 25).1 (by decide)).1,
    ((Bot_OnPain_OnEnemyDamaged_skip_self Bot.sample 7 (1 / 2) 25).2 rfl).1,
    ((Bot_OnPain_OnEnemyDamaged_skip_self Bot.sample 7 (1 / 2) 25).2 rfl).2⟩

/-! ## The assertion of cl_mm_login_done -/

theorem cl_mm_login_branches_none_state (cfg : MMConfig) (root : LoginResponseRoot) (now : Int)
    (st st1 : MMState) (hentry : st.cl_mm_loginState ≠ LOGIN_STATE_NONE)
    (h : cl_mm_login_branches cfg root now st = some st1)
    (hnone : st1.cl_mm_loginState = LOGIN_STATE_NONE) :
    st.cl_mm_loginState = LOGIN_STATE_READY ∧ root.ready = LOGIN_RESPONSE_READY ∧
      root.session_id = some st1.mm_session ∧
      cfg.Uuid_IsValidSessionId st1.mm_session = true := by
  have hkeep : ∀ s : MMState,
      (match root.player_info with
        | some info =>
          { s with
            cl_mm_profile_url := cl_mm_StringCopy info.profile_web_url
            cl_mm_profile_url_rml := cl_mm_StringCopy info.profile_rml_url }
        | none => s).mm_session = s.mm_session := by
    intro s
    split <;> rfl
  have hkeep2 : ∀ s : MMState,
      (match root.ratings with
        | some elements => cl_mm_login_addRatings cfg elements s
        | none => s).mm_session = s.mm_session := by
    intro s
    split
    · exact (cl_mm_login_addRatings_enabled cfg _ s).2.2
    · rfl
  unfold cl_mm_login_branches at h
  split at h
  · split at h
    · split at h
      · cases h
      · cases h
        cases hnone
    · cases h
  · split at h
    · rename_i hready
      split at h
      · cases h
      · rename_i sid hsid
        split at h
        · cases h
        · rename_i hvalid
          cases h
          have hs : (match root.player_info with
              | some info =>
                { (match root.ratings with
                    | some elements =>
                      cl_mm_login_addRatings cfg elements
                        { st with
                          mm_session := sid
                          cl_mm_loginState := LOGIN_STATE_NONE
                          cl_mm_enabled := true }
                    | none =>
                      { st with
                        mm_session := sid
                        cl_mm_loginState := LOGIN_STATE_NONE
                        cl_mm_enabled := true }) with
                  cl_mm_profile_url := cl_mm_StringCopy info.profile_web_url
                  cl_mm_profile_url_rml := cl_mm_StringCopy info.profile_rml_url }
              | none =>
                (match root.ratings with
                  | some elements =>
                    cl_mm_login_addRatings cfg elements
                      { st with
                        mm_session := sid
                        cl_mm_loginState := LOGIN_STATE_NONE
                        cl_mm_enabled := true }
                  | none =>
                    { st with
                      mm_session := sid
                      cl_mm_loginState := LOGIN_STATE_NONE
                      cl_mm_enabled := true })).mm_session = sid := by
            rw [hkeep, hkeep2]
          refine ⟨hready.1, hready.2, ?_, ?_⟩
          · rw [hsid]
            exact congrArg some hs.symm
          · rw [hs]
            simpa using hvalid
    · cases h
      exact absurd hnone hentry

theorem cl_mm_login_final_checked_ok (cfg : MMConfig) (st : MMState)
    (h : st.cl_mm_loginState = LOGIN_STATE_NONE → cfg.Uuid_IsValidSessionId st.mm_session = true) :
    cl_mm_login_final_checked cfg st = some (cl_mm_login_final st) := by
  unfold cl_mm_login_final_checked cl_mm_login_final
  by_cases hn : st.cl_mm_loginState = LOGIN_STATE_NONE
  · rw [if_pos hn, if_pos hn, if_pos (h hn)]
  · rw [if_neg hn, if_neg hn]

/-- Claim C16. The assertion of cl_mm_login_done never fails: for every response,
clock value and state the callback with its assertion checked returns, in the
state the callback computes. When the callback is entered with the login state
WAITING or READY and the final check is reached with the login state NONE, the
state was READY, the response was the READY response, and cls.mm_session is the
session id of the response, which is a valid session id. -/
theorem cl_mm_login_done_assertion_never_fails (cfg : MMConfig) (res : QueryResult)
    (now : Int) (st : MMState) :
    cl_mm_login_done_checked cfg res now st = some (cl_mm_login_done cfg res now st) ∧
      (∀ (root : LoginResponseRoot) (st1 : MMState),
        (st.cl_mm_loginState = LOGIN_STATE_WAITING ∨ st.cl_mm_loginState = LOGIN_STATE_READY) →
        cl_mm_login_branches cfg root now
            { st with cl_mm_enabled := false, mm_session := Uuid_ZeroUuid, sessionCvar := none } =
          some st1 →
        st1.cl_mm_loginState = LOGIN_STATE_NONE →
        cfg.Uuid_IsValidSessionId st1.mm_session = true ∧
          st.cl_mm_loginState = LOGIN_STATE_READY ∧ root.ready = LOGIN_RESPONSE_READY ∧
          root.session_id = some st1.mm_session) := by
  constructor
  · unfold cl_mm_login_done_checked cl_mm_login_done
    by_cases hentry : st.cl_mm_loginState = LOGIN_STATE_NONE
    · rw [if_pos hentry, if_pos hentry]
    · rw [if_neg hentry, if_neg hentry]
      dsimp only
      split
      · rfl
      · split
        · rfl
        · split
          · rfl
          · split
            · rfl
            · split
              · rfl
              · rename_i st1 hbr
                apply cl_mm_login_final_checked_ok
                intro hnone
                exact (cl_mm_login_branches_none_state cfg _ now
                  { st with
                    cl_mm_enabled := false
                    mm_session := Uuid_ZeroUuid
                    sessionCvar := none } st1 hentry hbr hnone).2.2.2
  · intro root st1 hentry hbr hnone
    have hne : st.cl_mm_loginState ≠ LOGIN_STATE_NONE := by
      rcases hentry with h | h
      · rw [h]; decide
      · rw [h]; decide
    have h := cl_mm_login_branches_none_state cfg root now
      { st with
        cl_mm_enabled := false
        mm_session := Uuid_ZeroUuid
        sessionCvar := none } st1 hne hbr hnone
    exact ⟨h.2.2.2, h.1, h.2.1, h.2.2.1⟩

/-- A client in step 2 receives the session response: the final check is reached
with the login state NONE and the session id of the response, a valid one. -/
theorem cl_mm_login_done_assertion_never_fails_witness :
    MMConfig.sample.Uuid_IsValidSessionId MMState.sampleAtFinalCheck.mm_session = true ∧
      LoginResponseRoot.sampleReady.session_id = some MMState.sampleAtFinalCheck.mm_session :=
  ⟨((cl_mm_login_done_assertion_never_fails MMConfig.sample QueryResult.sampleReady 20
      MMState.sampleStep2).2 LoginResponseRoot.sampleReady MMState.sampleAtFinalCheck
      (Or.inr rfl) (by decide) rfl).1,
    ((cl_mm_login_done_assertion_never_fails MMConfig.sample QueryResult.sampleReady 20
      MMState.sampleStep2).2 LoginResponseRoot.sampleReady MMState.sampleAtFinalCheck
      (Or.inr rfl) (by decide) rfl).2.2.2⟩

/-! ## RequestForKeysLauncher -/

/-- Claim C13, the counterexample. For the two arguments (a value that is not an
array, a callback) StartExec creates and commits nothing, but the exception it
sets is not the text 'An array is expected as a first argument in this case':
the text of the source ends in a newline. -/
theorem StartExec_counterexample :
    (StartExec validateFunction [.other, .function 0] LauncherState.fresh "").1 =
        LauncherState.fresh ∧
      (StartExec validateFunction [.other, .function 0] LauncherState.fresh "").2 ≠
        "An array is expected as a first argument in this case" ∧
      (StartExec validateFunction [.other, .function 0] LauncherState.fresh "").2 =
        "An array is expected as a first argument in this case\n" := by
  refine ⟨by decide, by decide, by decide⟩

/-- Claim C13 as amended. If jsArgs.size() is neither 1 nor 2, StartExec sets the
exception 'Illegal arguments list size, 1 or 2 arguments are expected'; if the
size is 2 and the first argument is not an array it sets 'An array is expected
as a first argument in this case' followed by a newline. In both cases the
launcher is left as it was: no request is created and no message is
committed, whatever the callback check would say. -/
theorem StartExec_rejects_bad_argument_lists (validate : CefV8Value → Option String)
    (jsArgs : List CefV8Value) (st : LauncherState) (exception : String) :
    ((jsArgs.length ≠ 1 ∧ jsArgs.length ≠ 2) →
        StartExec validate jsArgs st exception =
          (st, "Illegal arguments list size, 1 or 2 arguments are expected")) ∧
      ((jsArgs.length = 2 ∧ (jsArgs.headD .other).IsArray = false) →
        StartExec validate jsArgs st exception =
          (st, "An array is expected as a first argument in this case\n")) := by
  constructor
  · intro h
    unfold StartExec
    rw [if_pos h]
  · intro h
    have h1 : ¬ (jsArgs.length ≠ 1 ∧ jsArgs.length ≠ 2) := fun hn => hn.2 h.1
    unfold StartExec
    rw [if_neg h1, if_pos h]

/-- Three arguments, and two arguments whose first is not an array. -/
theorem StartExec_rejects_bad_argument_lists_witness :
    StartExec validateFunction [.int 1, .int 2, .function 0] LauncherState.fresh "" =
        (LauncherState.fresh, "Illegal arguments list size, 1 or 2 arguments are expected") ∧
      StartExec validateFunction [.int 1, .function 0] LauncherState.fresh "" =
        (LauncherState.fresh, "An array is expected as a first argument in this case\n") :=
  ⟨(StartExec_rejects_bad_argument_lists validateFunction [.int 1, .int 2, .function 0]
      LauncherState.fresh "").1 (by decide),
    (StartExec_rejects_bad_argument_lists validateFunction [.int 1, .function 0]
      LauncherState.fresh "").2 ⟨rfl, rfl⟩⟩

end QFusion
